import Mathlib

/-! Word frequency counter (`golang/main.go`).

A shallow embedding of `wordFrequency` and `main`, together with the parts of the Go
standard library they call (`strings.ToLower`, `regexp.MustCompile`,
`(*Regexp).ReplaceAllString`, `strings.Fields`, `fmt.Printf`).

Modelling conventions.

* A Go `string` is a `String`: the sequence of runes that decoding its bytes yields.
  `strings.ToLower` and the regexp engine both decode a byte that is not part of a valid
  UTF-8 encoding as the rune U+FFFD, so such a byte behaves like the character U+FFFD.
* A Go `int` is an `Int`. The only arithmetic is `frequency[word]++`; a counter is bounded
  by the number of tokens, hence by the byte length of the text, which fits in an `int`,
  so the increment never wraps.
* A Go `map[string]int` is an association list with unique keys, kept in insertion order.
  The order is an artefact of the model: `range` may visit the entries in any order.
* A panic is a value of `Except.error`.
-/

set_option maxRecDepth 4000

/-! ## Package `unicode` -/

namespace unicode

def MaxRune : Nat := 0x10FFFF

def MaxASCII : Nat := 0x7F

def MaxLatin1 : Nat := 0xFF

/-- The sentinel delta of a range whose code points alternate upper, lower, upper, ... -/
def UpperLower : Int := MaxRune + 1

/-- A row of the case table, restricted to its `LowerCase` delta. -/
structure CaseRange where
  Lo : Nat
  Hi : Nat
  Delta : Int
deriving DecidableEq, Repr

/-- The `LowerCase` column of the table `unicode.CaseRanges`: the simple lower-case mappings
of the Unicode character database (version 14.0.0) as rows sorted by `Lo` and pairwise
disjoint. A run of code points that alternate upper, lower, upper, ... is one `UpperLower`
row; any other row shifts its code points by `Delta`. Code points whose lower case is
themselves have no row: for them `to` returns `r`, as it does when no row is found.
A Go release built on a later Unicode version has more rows (for example U+A7CB to U+0264
and U+10D50 to U+10D70); they send runes above ASCII to runes above ASCII, which the
pattern of `wordFrequency` removes in either form. -/
def CaseRanges : List CaseRange := [
  CaseRange.mk 0x0041 0x005A (32), CaseRange.mk 0x00C0 0x00D6 (32), CaseRange.mk 0x00D8 0x00DE (32),
  CaseRange.mk 0x0100 0x012F (UpperLower), CaseRange.mk 0x0130 0x0130 (-199), CaseRange.mk 0x0132 0x0137 (UpperLower),
  CaseRange.mk 0x0139 0x0148 (UpperLower), CaseRange.mk 0x014A 0x0177 (UpperLower), CaseRange.mk 0x0178 0x0178 (-121),
  CaseRange.mk 0x0179 0x017E (UpperLower), CaseRange.mk 0x0181 0x0181 (210), CaseRange.mk 0x0182 0x0185 (UpperLower),
  CaseRange.mk 0x0186 0x0186 (206), CaseRange.mk 0x0187 0x0187 (1), CaseRange.mk 0x0189 0x018A (205),
  CaseRange.mk 0x018B 0x018B (1), CaseRange.mk 0x018E 0x018E (79), CaseRange.mk 0x018F 0x018F (202),
  CaseRange.mk 0x0190 0x0190 (203), CaseRange.mk 0x0191 0x0191 (1), CaseRange.mk 0x0193 0x0193 (205),
  CaseRange.mk 0x0194 0x0194 (207), CaseRange.mk 0x0196 0x0196 (211), CaseRange.mk 0x0197 0x0197 (209),
  CaseRange.mk 0x0198 0x0198 (1), CaseRange.mk 0x019C 0x019C (211), CaseRange.mk 0x019D 0x019D (213),
  CaseRange.mk 0x019F 0x019F (214), CaseRange.mk 0x01A0 0x01A5 (UpperLower), CaseRange.mk 0x01A6 0x01A6 (218),
  CaseRange.mk 0x01A7 0x01A7 (1), CaseRange.mk 0x01A9 0x01A9 (218), CaseRange.mk 0x01AC 0x01AC (1),
  CaseRange.mk 0x01AE 0x01AE (218), CaseRange.mk 0x01AF 0x01AF (1), CaseRange.mk 0x01B1 0x01B2 (217),
  CaseRange.mk 0x01B3 0x01B6 (UpperLower), CaseRange.mk 0x01B7 0x01B7 (219), CaseRange.mk 0x01B8 0x01B8 (1),
  CaseRange.mk 0x01BC 0x01BC (1), CaseRange.mk 0x01C4 0x01C4 (2), CaseRange.mk 0x01C5 0x01C5 (1),
  CaseRange.mk 0x01C7 0x01C7 (2), CaseRange.mk 0x01C8 0x01C8 (1), CaseRange.mk 0x01CA 0x01CA (2),
  CaseRange.mk 0x01CB 0x01DC (UpperLower), CaseRange.mk 0x01DE 0x01EF (UpperLower), CaseRange.mk 0x01F1 0x01F1 (2),
  CaseRange.mk 0x01F2 0x01F5 (UpperLower), CaseRange.mk 0x01F6 0x01F6 (-97), CaseRange.mk 0x01F7 0x01F7 (-56),
  CaseRange.mk 0x01F8 0x021F (UpperLower), CaseRange.mk 0x0220 0x0220 (-130), CaseRange.mk 0x0222 0x0233 (UpperLower),
  CaseRange.mk 0x023A 0x023A (10795), CaseRange.mk 0x023B 0x023B (1), CaseRange.mk 0x023D 0x023D (-163),
  CaseRange.mk 0x023E 0x023E (10792), CaseRange.mk 0x0241 0x0241 (1), CaseRange.mk 0x0243 0x0243 (-195),
  CaseRange.mk 0x0244 0x0244 (69), CaseRange.mk 0x0245 0x0245 (71), CaseRange.mk 0x0246 0x024F (UpperLower),
  CaseRange.mk 0x0370 0x0373 (UpperLower), CaseRange.mk 0x0376 0x0376 (1), CaseRange.mk 0x037F 0x037F (116),
  CaseRange.mk 0x0386 0x0386 (38), CaseRange.mk 0x0388 0x038A (37), CaseRange.mk 0x038C 0x038C (64),
  CaseRange.mk 0x038E 0x038F (63), CaseRange.mk 0x0391 0x03A1 (32), CaseRange.mk 0x03A3 0x03AB (32),
  CaseRange.mk 0x03CF 0x03CF (8), CaseRange.mk 0x03D8 0x03EF (UpperLower), CaseRange.mk 0x03F4 0x03F4 (-60),
  CaseRange.mk 0x03F7 0x03F7 (1), CaseRange.mk 0x03F9 0x03F9 (-7), CaseRange.mk 0x03FA 0x03FA (1),
  CaseRange.mk 0x03FD 0x03FF (-130), CaseRange.mk 0x0400 0x040F (80), CaseRange.mk 0x0410 0x042F (32),
  CaseRange.mk 0x0460 0x0481 (UpperLower), CaseRange.mk 0x048A 0x04BF (UpperLower), CaseRange.mk 0x04C0 0x04C0 (15),
  CaseRange.mk 0x04C1 0x04CE (UpperLower), CaseRange.mk 0x04D0 0x052F (UpperLower), CaseRange.mk 0x0531 0x0556 (48),
  CaseRange.mk 0x10A0 0x10C5 (7264), CaseRange.mk 0x10C7 0x10C7 (7264), CaseRange.mk 0x10CD 0x10CD (7264),
  CaseRange.mk 0x13A0 0x13EF (38864), CaseRange.mk 0x13F0 0x13F5 (8), CaseRange.mk 0x1C90 0x1CBA (-3008),
  CaseRange.mk 0x1CBD 0x1CBF (-3008), CaseRange.mk 0x1E00 0x1E95 (UpperLower), CaseRange.mk 0x1E9E 0x1E9E (-7615),
  CaseRange.mk 0x1EA0 0x1EFF (UpperLower), CaseRange.mk 0x1F08 0x1F0F (-8), CaseRange.mk 0x1F18 0x1F1D (-8),
  CaseRange.mk 0x1F28 0x1F2F (-8), CaseRange.mk 0x1F38 0x1F3F (-8), CaseRange.mk 0x1F48 0x1F4D (-8),
  CaseRange.mk 0x1F59 0x1F59 (-8), CaseRange.mk 0x1F5B 0x1F5B (-8), CaseRange.mk 0x1F5D 0x1F5D (-8),
  CaseRange.mk 0x1F5F 0x1F5F (-8), CaseRange.mk 0x1F68 0x1F6F (-8), CaseRange.mk 0x1F88 0x1F8F (-8),
  CaseRange.mk 0x1F98 0x1F9F (-8), CaseRange.mk 0x1FA8 0x1FAF (-8), CaseRange.mk 0x1FB8 0x1FB9 (-8),
  CaseRange.mk 0x1FBA 0x1FBB (-74), CaseRange.mk 0x1FBC 0x1FBC (-9), CaseRange.mk 0x1FC8 0x1FCB (-86),
  CaseRange.mk 0x1FCC 0x1FCC (-9), CaseRange.mk 0x1FD8 0x1FD9 (-8), CaseRange.mk 0x1FDA 0x1FDB (-100),
  CaseRange.mk 0x1FE8 0x1FE9 (-8), CaseRange.mk 0x1FEA 0x1FEB (-112), CaseRange.mk 0x1FEC 0x1FEC (-7),
  CaseRange.mk 0x1FF8 0x1FF9 (-128), CaseRange.mk 0x1FFA 0x1FFB (-126), CaseRange.mk 0x1FFC 0x1FFC (-9),
  CaseRange.mk 0x2126 0x2126 (-7517), CaseRange.mk 0x212A 0x212A (-8383), CaseRange.mk 0x212B 0x212B (-8262),
  CaseRange.mk 0x2132 0x2132 (28), CaseRange.mk 0x2160 0x216F (16), CaseRange.mk 0x2183 0x2183 (1),
  CaseRange.mk 0x24B6 0x24CF (26), CaseRange.mk 0x2C00 0x2C2F (48), CaseRange.mk 0x2C60 0x2C60 (1),
  CaseRange.mk 0x2C62 0x2C62 (-10743), CaseRange.mk 0x2C63 0x2C63 (-3814), CaseRange.mk 0x2C64 0x2C64 (-10727),
  CaseRange.mk 0x2C67 0x2C6C (UpperLower), CaseRange.mk 0x2C6D 0x2C6D (-10780), CaseRange.mk 0x2C6E 0x2C6E (-10749),
  CaseRange.mk 0x2C6F 0x2C6F (-10783), CaseRange.mk 0x2C70 0x2C70 (-10782), CaseRange.mk 0x2C72 0x2C72 (1),
  CaseRange.mk 0x2C75 0x2C75 (1), CaseRange.mk 0x2C7E 0x2C7F (-10815), CaseRange.mk 0x2C80 0x2CE3 (UpperLower),
  CaseRange.mk 0x2CEB 0x2CEE (UpperLower), CaseRange.mk 0x2CF2 0x2CF2 (1), CaseRange.mk 0xA640 0xA66D (UpperLower),
  CaseRange.mk 0xA680 0xA69B (UpperLower), CaseRange.mk 0xA722 0xA72F (UpperLower), CaseRange.mk 0xA732 0xA76F (UpperLower),
  CaseRange.mk 0xA779 0xA77C (UpperLower), CaseRange.mk 0xA77D 0xA77D (-35332), CaseRange.mk 0xA77E 0xA787 (UpperLower),
  CaseRange.mk 0xA78B 0xA78B (1), CaseRange.mk 0xA78D 0xA78D (-42280), CaseRange.mk 0xA790 0xA793 (UpperLower),
  CaseRange.mk 0xA796 0xA7A9 (UpperLower), CaseRange.mk 0xA7AA 0xA7AA (-42308), CaseRange.mk 0xA7AB 0xA7AB (-42319),
  CaseRange.mk 0xA7AC 0xA7AC (-42315), CaseRange.mk 0xA7AD 0xA7AD (-42305), CaseRange.mk 0xA7AE 0xA7AE (-42308),
  CaseRange.mk 0xA7B0 0xA7B0 (-42258), CaseRange.mk 0xA7B1 0xA7B1 (-42282), CaseRange.mk 0xA7B2 0xA7B2 (-42261),
  CaseRange.mk 0xA7B3 0xA7B3 (928), CaseRange.mk 0xA7B4 0xA7C3 (UpperLower), CaseRange.mk 0xA7C4 0xA7C4 (-48),
  CaseRange.mk 0xA7C5 0xA7C5 (-42307), CaseRange.mk 0xA7C6 0xA7C6 (-35384), CaseRange.mk 0xA7C7 0xA7CA (UpperLower),
  CaseRange.mk 0xA7D0 0xA7D0 (1), CaseRange.mk 0xA7D6 0xA7D9 (UpperLower), CaseRange.mk 0xA7F5 0xA7F5 (1),
  CaseRange.mk 0xFF21 0xFF3A (32), CaseRange.mk 0x10400 0x10427 (40), CaseRange.mk 0x104B0 0x104D3 (40),
  CaseRange.mk 0x10570 0x1057A (39), CaseRange.mk 0x1057C 0x1058A (39), CaseRange.mk 0x1058C 0x10592 (39),
  CaseRange.mk 0x10594 0x10595 (39), CaseRange.mk 0x10C80 0x10CB2 (64), CaseRange.mk 0x118A0 0x118BF (32),
  CaseRange.mk 0x16E40 0x16E5F (32), CaseRange.mk 0x1E900 0x1E921 (34)
  ]

/-- Go `unicode.to` at `_case = LowerCase` (`to` is a reserved word here): find the row that holds `r` and add its delta.
In an `UpperLower` row the result is `Lo + ((r - Lo) &^ 1 | 1)`, the odd offset of the pair.
The source finds the row by binary search; on a sorted table of disjoint rows the first
row that holds `r` is the same row. -/
def to_LowerCase (r : Char) (caseRange : List CaseRange) : Char :=
  match caseRange.find? (fun cr => decide (cr.Lo ≤ r.toNat) && decide (r.toNat ≤ cr.Hi)) with
  | some cr =>
    if cr.Delta > MaxRune then
      Char.ofNat (cr.Lo + ((r.toNat - cr.Lo) - (r.toNat - cr.Lo) % 2 + 1))
    else
      Char.ofNat ((r.toNat : Int) + cr.Delta).toNat
  | none => r

/-- Go `unicode.ToLower`: ASCII is handled inline, everything else through the case table. -/
def ToLower (r : Char) : Char :=
  if r.toNat ≤ MaxASCII then
    if 'A'.toNat ≤ r.toNat ∧ r.toNat ≤ 'Z'.toNat then
      Char.ofNat (r.toNat + ('a'.toNat - 'A'.toNat))
    else r
  else to_LowerCase r CaseRanges

/-- Go `unicode.IsSpace`: the Latin-1 spaces are listed inline, the others are the code points
above Latin-1 with the `White_Space` property. -/
def IsSpace (r : Char) : Bool :=
  if r.toNat ≤ MaxLatin1 then
    r.toNat = 0x09 || r.toNat = 0x0A || r.toNat = 0x0B || r.toNat = 0x0C || r.toNat = 0x0D
      || r.toNat = 0x20 || r.toNat = 0x85 || r.toNat = 0xA0
  else
    r.toNat = 0x1680 || (decide (0x2000 ≤ r.toNat) && decide (r.toNat ≤ 0x200A))
      || r.toNat = 0x2028 || r.toNat = 0x2029 || r.toNat = 0x202F || r.toNat = 0x205F
      || r.toNat = 0x3000

end unicode

/-! ## Package `strings` -/

namespace strings

/-- Go `strings.ToLower`: every rune is mapped through `unicode.ToLower` (the ASCII fast
path of the source computes the same text). -/
def ToLower (s : String) : String :=
  ⟨s.data.map unicode.ToLower⟩

/-- The scanning loop of `strings.Fields`. `field` holds, in reverse, the runes of the field
being read (empty while spaces are skipped); a field is emitted when a space or the end of
the text ends it. -/
def fieldsLoop : List Char → List Char → List String
  | [], field => if field = [] then [] else [⟨field.reverse⟩]
  | r :: rest, field =>
    if unicode.IsSpace r then
      if field = [] then fieldsLoop rest [] else ⟨field.reverse⟩ :: fieldsLoop rest []
    else fieldsLoop rest (r :: field)

/-- Go `strings.Fields`: the text split around runs of `unicode.IsSpace` runes, without
empty fields (on an ASCII text the source tests the table `asciiSpace`, which holds the six
ASCII runes of `unicode.IsSpace`). -/
def Fields (s : String) : List String :=
  fieldsLoop s.data []

end strings

/-! ## Package `regexp`

Only the fragment of the pattern syntax that the program uses is modelled: a pattern that
is one bracket expression. A pattern outside the fragment is answered with `notModelled`,
so the model never accepts a pattern that it cannot also match. -/

namespace regexp

inductive ErrorCode where
  | ErrMissingBracket
  | ErrInvalidCharRange
  | ErrInvalidEscape
  | ErrTrailingBackslash
  | notModelled
deriving DecidableEq, Repr

/-- A compiled pattern of the fragment: one character class, as the list of rune ranges
written between the brackets and a flag for a leading `^`. (The source stores the
complemented ranges of a negated class; `MatchRune` complements the answer instead.) -/
structure Regexp where
  negated : Bool
  ranges : List (Nat × Nat)
deriving DecidableEq, Repr

/-- The table `perlGroup` of `regexp/syntax`, positive groups only. -/
def perlGroup (c : Char) : Option (List (Nat × Nat)) :=
  if c = 'd' then some [(0x30, 0x39)]
  else if c = 's' then some [(0x09, 0x0A), (0x0C, 0x0D), (0x20, 0x20)]
  else if c = 'w' then some [(0x30, 0x39), (0x41, 0x5A), (0x5F, 0x5F), (0x61, 0x7A)]
  else none

def isalnum (c : Char) : Bool :=
  (decide ('0'.toNat ≤ c.toNat) && decide (c.toNat ≤ '9'.toNat))
    || (decide ('A'.toNat ≤ c.toNat) && decide (c.toNat ≤ 'Z'.toNat))
    || (decide ('a'.toNat ≤ c.toNat) && decide (c.toNat ≤ 'z'.toNat))

/-- The escapes of `parseEscape` (called on the text after the backslash): an escaped ASCII
character that is not alphanumeric stands for itself, `\a \f \n \r \t \v` are the control
characters; octal and hexadecimal escapes are not modelled. -/
def parseEscape : List Char → Except ErrorCode (Char × List Char)
  | [] => .error .ErrTrailingBackslash
  | c :: t =>
    if c.toNat < 0x80 ∧ isalnum c = false then .ok (c, t)
    else if c = 'a' then .ok (Char.ofNat 7, t)
    else if c = 'f' then .ok (Char.ofNat 12, t)
    else if c = 'n' then .ok (Char.ofNat 10, t)
    else if c = 'r' then .ok (Char.ofNat 13, t)
    else if c = 't' then .ok (Char.ofNat 9, t)
    else if c = 'v' then .ok (Char.ofNat 11, t)
    else if c = 'x' ∨ ('0'.toNat ≤ c.toNat ∧ c.toNat ≤ '7'.toNat) then .error .notModelled
    else .error .ErrInvalidEscape

/-- One character of a class, `parseClassChar`. -/
def parseClassChar : List Char → Except ErrorCode (Char × List Char)
  | [] => .error .ErrMissingBracket
  | c :: t => if c = '\\' then parseEscape t else .ok (c, t)

/-- The Perl class escapes `\d \s \w` of `parsePerlClassEscape`; `\D \S \W` and the Unicode
classes `\p \P` are not modelled. -/
def parsePerlClassEscape : List Char → Except ErrorCode (Option (List (Nat × Nat) × List Char))
  | '\\' :: c :: t =>
    if c = 'D' ∨ c = 'S' ∨ c = 'W' ∨ c = 'p' ∨ c = 'P' then .error .notModelled
    else match perlGroup c with
      | some g => .ok (some (g, t))
      | none => .ok none
  | _ => .ok none

/-- The loop of `parseClass` over the text after `[` or `[^`. Every round consumes at least
one rune, so `fuel` larger than the length of the text is never used up. -/
def parseClassLoop : Nat → List Char → Bool → List (Nat × Nat) →
    Except ErrorCode (List (Nat × Nat) × List Char)
  | 0, _, _, _ => .error .notModelled
  | fuel + 1, t, first, cls =>
    if t.head? = some ']' ∧ first = false then .ok (cls, t.tail)
    else if t.head? = some '[' ∧ t.tail.head? = some ':' ∧ 2 < t.length then .error .notModelled
    else do
      match ← parsePerlClassEscape t with
      | some (g, t) => parseClassLoop fuel t false (cls ++ g)
      | none =>
        let (lo, t) ← parseClassChar t
        let (hi, t) ←
          if 2 ≤ t.length ∧ t.head? = some '-' ∧ t.tail.head? ≠ some ']' then
            parseClassChar t.tail
          else pure (lo, t)
        if hi.toNat < lo.toNat then .error .ErrInvalidCharRange
        else parseClassLoop fuel t false (cls ++ [(lo.toNat, hi.toNat)])

/-- Go `regexp.Compile`, on the fragment: `[`, an optional `^`, the class, `]`, end. -/
def Compile (expr : String) : Except ErrorCode Regexp :=
  match expr.data with
  | '[' :: t =>
    let negated := decide (t.head? = some '^')
    let t := if negated then t.tail else t
    match parseClassLoop (t.length + 1) t true [] with
    | .ok (cls, []) => .ok ⟨negated, cls⟩
    | .ok (_, _ :: _) => .error .notModelled
    | .error e => .error e
  | _ => .error .notModelled

/-- The value a failed `MustCompile` panics with. -/
structure Panic where
  expr : String
  err : ErrorCode
deriving DecidableEq, Repr

/-- Go `regexp.MustCompile`: `Compile`, panicking on an error. -/
def MustCompile (str : String) : Except Panic Regexp :=
  match Compile str with
  | .ok re => .ok re
  | .error e => .error ⟨str, e⟩

/-- Whether the class of `re` holds the rune `r`. -/
def Regexp.MatchRune (re : Regexp) (r : Char) : Bool :=
  xor re.negated (re.ranges.any (fun rg => decide (rg.1 ≤ r.toNat) && decide (r.toNat ≤ rg.2)))

/-- Go `(*Regexp).ReplaceAllString` for a template `repl` without `$`: the matches of a
one-class pattern are exactly the single runes in the class, and each is replaced. -/
def Regexp.ReplaceAllString (re : Regexp) (src repl : String) : String :=
  ⟨src.data.flatMap (fun r => if re.MatchRune r then repl.data else [r])⟩

end regexp

/-! ## `map[string]int` -/

abbrev GoMap := List (String × Int)

namespace GoMap

/-- Go `make(map[string]int)`. -/
def make : GoMap := []

/-- Go `m[k]` as a value: the zero value `0` when `k` is not a key. -/
def index : GoMap → String → Int
  | [], _ => 0
  | (k', v) :: m, k => if k' = k then v else index m k

/-- Go `m[k] = v`. -/
def assign : GoMap → String → Int → GoMap
  | [], k, v => [(k, v)]
  | (k', v') :: m, k, v => if k' = k then (k', v) :: m else (k', v') :: assign m k v

def keys (m : GoMap) : List String := m.map Prod.fst

def values (m : GoMap) : List Int := m.map Prod.snd

end GoMap

/-! ## Package `fmt` -/

namespace fmt

/-- The digit loop of `fmtInteger` in base 10: the digits of `u` are written in front of
`buf`, least significant first. `fuel` bounds the number of rounds. -/
def fmtDigits : Nat → Nat → List Char → List Char
  | 0, _, buf => buf
  | fuel + 1, u, buf =>
    if 10 ≤ u then
      fmtDigits fuel (u / 10) (Char.ofNat ('0'.toNat + (u - u / 10 * 10)) :: buf)
    else Char.ofNat ('0'.toNat + u) :: buf

/-- The verb `%d` on an `int`: a minus sign for a negative value, then the digits of the
absolute value. -/
def fmtInteger (v : Int) : String :=
  let digits := fmtDigits (v.natAbs + 1) v.natAbs []
  ⟨if v < 0 then '-' :: digits else digits⟩

/-- The text that `fmt.Printf("%s => %d\n", word, count)` writes. -/
def Printf (word : String) (count : Int) : String :=
  word ++ " => " ++ fmtInteger count ++ "\n"

end fmt

deriving instance DecidableEq for Except

/-! ## `main.go` -/

namespace golang

/-- Go `wordFrequency`, lines 9-29. -/
def wordFrequency (text : String) : Except regexp.Panic GoMap := do
  -- Convert to lowercase
  let text := strings.ToLower text
  -- Remove punctuation using regex
  let re ← regexp.MustCompile "[^\\w\\s]"
  let text := re.ReplaceAllString text ""
  -- Split text into words
  let words := strings.Fields text
  -- Create a map to store word frequencies
  let frequency := GoMap.make
  -- Count word occurrences
  let frequency := words.foldl
    (fun frequency word => frequency.assign word (frequency.index word + 1)) frequency
  return frequency


/-- Lines 10-15 of `wordFrequency` on their own: the lowercase-then-strip step. -/
def normalize (text : String) : Except regexp.Panic String := do
  let text := strings.ToLower text
  let re ← regexp.MustCompile "[^\\w\\s]"
  return re.ReplaceAllString text ""

/-- Lines 10-18 of `wordFrequency`: the token sequence `words`. -/
def tokens (text : String) : Except regexp.Panic (List String) := do
  let text ← normalize text
  return strings.Fields text

/-- Lines 20-26 of `wordFrequency`: the counting loop over `words`. -/
def countWords (words : List String) : GoMap :=
  words.foldl (fun frequency word => frequency.assign word (frequency.index word + 1)) GoMap.make

/-- The `range` loop of `main` (lines 36-38) over the entries in the order they are visited:
the text written to standard output. -/
def printLoop (entries : List (String × Int)) : String :=
  entries.foldl (fun stdout e => stdout ++ fmt.Printf e.1 e.2) ""

/-- Go `main`, lines 31-39: the text written to standard output. `range` over a map visits
every entry once, in an order the runtime chooses; `rangeOrder` is that choice. -/
def main (rangeOrder : GoMap → List (String × Int)) : Except regexp.Panic String := do
  let text := "Four, One two two three Three three four  four   four"
  let freq ← wordFrequency text
  -- Print word frequencies
  return printLoop (rangeOrder freq)

/-! ## Notions of the specification -/

/-- A word character: a letter, a digit or the underscore (the class `\w`). -/
def isWordChar (c : Char) : Bool :=
  regexp.isalnum c || c.toNat = 0x5F

/-- The whitespace of the stripping step (the class `\s`): tab, newline, form feed, carriage
return and space. -/
def isStripSpace (c : Char) : Bool :=
  c.toNat = 0x09 || c.toNat = 0x0A || c.toNat = 0x0C || c.toNat = 0x0D || c.toNat = 0x20

/-- The text that lines 10-15 compute, in closed form: the runes of `strings.ToLower` that
the pattern does not match, that is, those in `\w` or `\s`. -/
def codeNormalized (s : String) : List Char :=
  (strings.ToLower s).data.filter (fun c => isWordChar c || isStripSpace c)

/-- The maximal runs of elements that satisfy `p`. -/
def maximalRuns (p : Char → Bool) (l : List Char) : List (List Char) :=
  (l.splitOnP (fun c => !p c)).filter (fun run => !run.isEmpty)

/-- The maximal runs of word characters in `codeNormalized`. -/
def codeWords (s : String) : List String :=
  (maximalRuns isWordChar (codeNormalized s)).map String.mk

/-- An ASCII letter. -/
def isASCIILetter (c : Char) : Bool :=
  (decide ('A'.toNat ≤ c.toNat) && decide (c.toNat ≤ 'Z'.toNat))
    || (decide ('a'.toNat ≤ c.toNat) && decide (c.toNat ≤ 'z'.toNat))

/-- The same ASCII letter in the other case; any other character is left alone. -/
def otherCase (c : Char) : Char :=
  if 'A'.toNat ≤ c.toNat ∧ c.toNat ≤ 'Z'.toNat then Char.ofNat (c.toNat + 32)
  else if 'a'.toNat ≤ c.toNat ∧ c.toNat ≤ 'z'.toNat then Char.ofNat (c.toNat - 32)
  else c

/-- The text with every ASCII lower-case letter replaced by its upper-case letter. -/
def upperASCII (s : String) : String :=
  ⟨s.data.map (fun c => if 'a'.toNat ≤ c.toNat ∧ c.toNat ≤ 'z'.toNat then otherCase c else c)⟩

/-- A text of ASCII characters only. -/
def isASCII (s : String) : Bool :=
  s.data.all (fun c => decide (c.toNat < 0x80))

/-- An ASCII punctuation character: an ASCII character that is neither a letter, a digit,
the underscore nor whitespace of the stripping step. The vertical tab and the other control
characters outside `\s` are in this set. -/
def isASCIIPunct (c : Char) : Bool :=
  decide (c.toNat < 0x80) && !isWordChar c && !isStripSpace c

/-- A run of `n` spaces. -/
def spaces (n : Nat) : String :=
  ⟨List.replicate n ' '⟩

/-- A key made only of `a`-`z`, `0`-`9` and `_`, and not empty. -/
def isLowerWord (k : String) : Bool :=
  !k.data.isEmpty && k.data.all (fun c =>
    (decide ('a'.toNat ≤ c.toNat) && decide (c.toNat ≤ 'z'.toNat))
      || (decide ('0'.toNat ≤ c.toNat) && decide (c.toNat ≤ '9'.toNat)) || c.toNat = 0x5F)

/-- The decimal numeral of a natural number: its base-10 digits, most significant first,
and `0` for zero. -/
def decimalNumeral (n : Nat) : List Char :=
  if n = 0 then ['0'] else (Nat.digits 10 n).reverse.map Nat.digitChar

/-- An entry of the lower-case mapping: a code point and its lower-case form. -/
structure LowerPair where
  upper : Nat
  lower : Nat
deriving DecidableEq, Repr

/-- The simple lower-case mapping of the Unicode character database (version 14.0.0),
entry by entry: every code point whose lower-case form is another code point, with that
form. This is the specification's lower-casing; it is written without reference to the
case table of the code. -/
def lowerPairs : List LowerPair := [
  LowerPair.mk 0x0041 0x0061, LowerPair.mk 0x0042 0x0062, LowerPair.mk 0x0043 0x0063,
  LowerPair.mk 0x0044 0x0064, LowerPair.mk 0x0045 0x0065, LowerPair.mk 0x0046 0x0066,
  LowerPair.mk 0x0047 0x0067, LowerPair.mk 0x0048 0x0068, LowerPair.mk 0x0049 0x0069,
  LowerPair.mk 0x004A 0x006A, LowerPair.mk 0x004B 0x006B, LowerPair.mk 0x004C 0x006C,
  LowerPair.mk 0x004D 0x006D, LowerPair.mk 0x004E 0x006E, LowerPair.mk 0x004F 0x006F,
  LowerPair.mk 0x0050 0x0070, LowerPair.mk 0x0051 0x0071, LowerPair.mk 0x0052 0x0072,
  LowerPair.mk 0x0053 0x0073, LowerPair.mk 0x0054 0x0074, LowerPair.mk 0x0055 0x0075,
  LowerPair.mk 0x0056 0x0076, LowerPair.mk 0x0057 0x0077, LowerPair.mk 0x0058 0x0078,
  LowerPair.mk 0x0059 0x0079, LowerPair.mk 0x005A 0x007A, LowerPair.mk 0x00C0 0x00E0,
  LowerPair.mk 0x00C1 0x00E1, LowerPair.mk 0x00C2 0x00E2, LowerPair.mk 0x00C3 0x00E3,
  LowerPair.mk 0x00C4 0x00E4, LowerPair.mk 0x00C5 0x00E5, LowerPair.mk 0x00C6 0x00E6,
  LowerPair.mk 0x00C7 0x00E7, LowerPair.mk 0x00C8 0x00E8, LowerPair.mk 0x00C9 0x00E9,
  LowerPair.mk 0x00CA 0x00EA, LowerPair.mk 0x00CB 0x00EB, LowerPair.mk 0x00CC 0x00EC,
  LowerPair.mk 0x00CD 0x00ED, LowerPair.mk 0x00CE 0x00EE, LowerPair.mk 0x00CF 0x00EF,
  LowerPair.mk 0x00D0 0x00F0, LowerPair.mk 0x00D1 0x00F1, LowerPair.mk 0x00D2 0x00F2,
  LowerPair.mk 0x00D3 0x00F3, LowerPair.mk 0x00D4 0x00F4, LowerPair.mk 0x00D5 0x00F5,
  LowerPair.mk 0x00D6 0x00F6, LowerPair.mk 0x00D8 0x00F8, LowerPair.mk 0x00D9 0x00F9,
  LowerPair.mk 0x00DA 0x00FA, LowerPair.mk 0x00DB 0x00FB, LowerPair.mk 0x00DC 0x00FC,
  LowerPair.mk 0x00DD 0x00FD, LowerPair.mk 0x00DE 0x00FE, LowerPair.mk 0x0100 0x0101,
  LowerPair.mk 0x0102 0x0103, LowerPair.mk 0x0104 0x0105, LowerPair.mk 0x0106 0x0107,
  LowerPair.mk 0x0108 0x0109, LowerPair.mk 0x010A 0x010B, LowerPair.mk 0x010C 0x010D,
  LowerPair.mk 0x010E 0x010F, LowerPair.mk 0x0110 0x0111, LowerPair.mk 0x0112 0x0113,
  LowerPair.mk 0x0114 0x0115, LowerPair.mk 0x0116 0x0117, LowerPair.mk 0x0118 0x0119,
  LowerPair.mk 0x011A 0x011B, LowerPair.mk 0x011C 0x011D, LowerPair.mk 0x011E 0x011F,
  LowerPair.mk 0x0120 0x0121, LowerPair.mk 0x0122 0x0123, LowerPair.mk 0x0124 0x0125,
  LowerPair.mk 0x0126 0x0127, LowerPair.mk 0x0128 0x0129, LowerPair.mk 0x012A 0x012B,
  LowerPair.mk 0x012C 0x012D, LowerPair.mk 0x012E 0x012F, LowerPair.mk 0x0130 0x0069,
  LowerPair.mk 0x0132 0x0133, LowerPair.mk 0x0134 0x0135, LowerPair.mk 0x0136 0x0137,
  LowerPair.mk 0x0139 0x013A, LowerPair.mk 0x013B 0x013C, LowerPair.mk 0x013D 0x013E,
  LowerPair.mk 0x013F 0x0140, LowerPair.mk 0x0141 0x0142, LowerPair.mk 0x0143 0x0144,
  LowerPair.mk 0x0145 0x0146, LowerPair.mk 0x0147 0x0148, LowerPair.mk 0x014A 0x014B,
  LowerPair.mk 0x014C 0x014D, LowerPair.mk 0x014E 0x014F, LowerPair.mk 0x0150 0x0151,
  LowerPair.mk 0x0152 0x0153, LowerPair.mk 0x0154 0x0155, LowerPair.mk 0x0156 0x0157,
  LowerPair.mk 0x0158 0x0159, LowerPair.mk 0x015A 0x015B, LowerPair.mk 0x015C 0x015D,
  LowerPair.mk 0x015E 0x015F, LowerPair.mk 0x0160 0x0161, LowerPair.mk 0x0162 0x0163,
  LowerPair.mk 0x0164 0x0165, LowerPair.mk 0x0166 0x0167, LowerPair.mk 0x0168 0x0169,
  LowerPair.mk 0x016A 0x016B, LowerPair.mk 0x016C 0x016D, LowerPair.mk 0x016E 0x016F,
  LowerPair.mk 0x0170 0x0171, LowerPair.mk 0x0172 0x0173, LowerPair.mk 0x0174 0x0175,
  LowerPair.mk 0x0176 0x0177, LowerPair.mk 0x0178 0x00FF, LowerPair.mk 0x0179 0x017A,
  LowerPair.mk 0x017B 0x017C, LowerPair.mk 0x017D 0x017E, LowerPair.mk 0x0181 0x0253,
  LowerPair.mk 0x0182 0x0183, LowerPair.mk 0x0184 0x0185, LowerPair.mk 0x0186 0x0254,
  LowerPair.mk 0x0187 0x0188, LowerPair.mk 0x0189 0x0256, LowerPair.mk 0x018A 0x0257,
  LowerPair.mk 0x018B 0x018C, LowerPair.mk 0x018E 0x01DD, LowerPair.mk 0x018F 0x0259,
  LowerPair.mk 0x0190 0x025B, LowerPair.mk 0x0191 0x0192, LowerPair.mk 0x0193 0x0260,
  LowerPair.mk 0x0194 0x0263, LowerPair.mk 0x0196 0x0269, LowerPair.mk 0x0197 0x0268,
  LowerPair.mk 0x0198 0x0199, LowerPair.mk 0x019C 0x026F, LowerPair.mk 0x019D 0x0272,
  LowerPair.mk 0x019F 0x0275, LowerPair.mk 0x01A0 0x01A1, LowerPair.mk 0x01A2 0x01A3,
  LowerPair.mk 0x01A4 0x01A5, LowerPair.mk 0x01A6 0x0280, LowerPair.mk 0x01A7 0x01A8,
  LowerPair.mk 0x01A9 0x0283, LowerPair.mk 0x01AC 0x01AD, LowerPair.mk 0x01AE 0x0288,
  LowerPair.mk 0x01AF 0x01B0, LowerPair.mk 0x01B1 0x028A, LowerPair.mk 0x01B2 0x028B,
  LowerPair.mk 0x01B3 0x01B4, LowerPair.mk 0x01B5 0x01B6, LowerPair.mk 0x01B7 0x0292,
  LowerPair.mk 0x01B8 0x01B9, LowerPair.mk 0x01BC 0x01BD, LowerPair.mk 0x01C4 0x01C6,
  LowerPair.mk 0x01C5 0x01C6, LowerPair.mk 0x01C7 0x01C9, LowerPair.mk 0x01C8 0x01C9,
  LowerPair.mk 0x01CA 0x01CC, LowerPair.mk 0x01CB 0x01CC, LowerPair.mk 0x01CD 0x01CE,
  LowerPair.mk 0x01CF 0x01D0, LowerPair.mk 0x01D1 0x01D2, LowerPair.mk 0x01D3 0x01D4,
  LowerPair.mk 0x01D5 0x01D6, LowerPair.mk 0x01D7 0x01D8, LowerPair.mk 0x01D9 0x01DA,
  LowerPair.mk 0x01DB 0x01DC, LowerPair.mk 0x01DE 0x01DF, LowerPair.mk 0x01E0 0x01E1,
  LowerPair.mk 0x01E2 0x01E3, LowerPair.mk 0x01E4 0x01E5, LowerPair.mk 0x01E6 0x01E7,
  LowerPair.mk 0x01E8 0x01E9, LowerPair.mk 0x01EA 0x01EB, LowerPair.mk 0x01EC 0x01ED,
  LowerPair.mk 0x01EE 0x01EF, LowerPair.mk 0x01F1 0x01F3, LowerPair.mk 0x01F2 0x01F3,
  LowerPair.mk 0x01F4 0x01F5, LowerPair.mk 0x01F6 0x0195, LowerPair.mk 0x01F7 0x01BF,
  LowerPair.mk 0x01F8 0x01F9, LowerPair.mk 0x01FA 0x01FB, LowerPair.mk 0x01FC 0x01FD,
  LowerPair.mk 0x01FE 0x01FF, LowerPair.mk 0x0200 0x0201, LowerPair.mk 0x0202 0x0203,
  LowerPair.mk 0x0204 0x0205, LowerPair.mk 0x0206 0x0207, LowerPair.mk 0x0208 0x0209,
  LowerPair.mk 0x020A 0x020B, LowerPair.mk 0x020C 0x020D, LowerPair.mk 0x020E 0x020F,
  LowerPair.mk 0x0210 0x0211, LowerPair.mk 0x0212 0x0213, LowerPair.mk 0x0214 0x0215,
  LowerPair.mk 0x0216 0x0217, LowerPair.mk 0x0218 0x0219, LowerPair.mk 0x021A 0x021B,
  LowerPair.mk 0x021C 0x021D, LowerPair.mk 0x021E 0x021F, LowerPair.mk 0x0220 0x019E,
  LowerPair.mk 0x0222 0x0223, LowerPair.mk 0x0224 0x0225, LowerPair.mk 0x0226 0x0227,
  LowerPair.mk 0x0228 0x0229, LowerPair.mk 0x022A 0x022B, LowerPair.mk 0x022C 0x022D,
  LowerPair.mk 0x022E 0x022F, LowerPair.mk 0x0230 0x0231, LowerPair.mk 0x0232 0x0233,
  LowerPair.mk 0x023A 0x2C65, LowerPair.mk 0x023B 0x023C, LowerPair.mk 0x023D 0x019A,
  LowerPair.mk 0x023E 0x2C66, LowerPair.mk 0x0241 0x0242, LowerPair.mk 0x0243 0x0180,
  LowerPair.mk 0x0244 0x0289, LowerPair.mk 0x0245 0x028C, LowerPair.mk 0x0246 0x0247,
  LowerPair.mk 0x0248 0x0249, LowerPair.mk 0x024A 0x024B, LowerPair.mk 0x024C 0x024D,
  LowerPair.mk 0x024E 0x024F, LowerPair.mk 0x0370 0x0371, LowerPair.mk 0x0372 0x0373,
  LowerPair.mk 0x0376 0x0377, LowerPair.mk 0x037F 0x03F3, LowerPair.mk 0x0386 0x03AC,
  LowerPair.mk 0x0388 0x03AD, LowerPair.mk 0x0389 0x03AE, LowerPair.mk 0x038A 0x03AF,
  LowerPair.mk 0x038C 0x03CC, LowerPair.mk 0x038E 0x03CD, LowerPair.mk 0x038F 0x03CE,
  LowerPair.mk 0x0391 0x03B1, LowerPair.mk 0x0392 0x03B2, LowerPair.mk 0x0393 0x03B3,
  LowerPair.mk 0x0394 0x03B4, LowerPair.mk 0x0395 0x03B5, LowerPair.mk 0x0396 0x03B6,
  LowerPair.mk 0x0397 0x03B7, LowerPair.mk 0x0398 0x03B8, LowerPair.mk 0x0399 0x03B9,
  LowerPair.mk 0x039A 0x03BA, LowerPair.mk 0x039B 0x03BB, LowerPair.mk 0x039C 0x03BC,
  LowerPair.mk 0x039D 0x03BD, LowerPair.mk 0x039E 0x03BE, LowerPair.mk 0x039F 0x03BF,
  LowerPair.mk 0x03A0 0x03C0, LowerPair.mk 0x03A1 0x03C1, LowerPair.mk 0x03A3 0x03C3,
  LowerPair.mk 0x03A4 0x03C4, LowerPair.mk 0x03A5 0x03C5, LowerPair.mk 0x03A6 0x03C6,
  LowerPair.mk 0x03A7 0x03C7, LowerPair.mk 0x03A8 0x03C8, LowerPair.mk 0x03A9 0x03C9,
  LowerPair.mk 0x03AA 0x03CA, LowerPair.mk 0x03AB 0x03CB, LowerPair.mk 0x03CF 0x03D7,
  LowerPair.mk 0x03D8 0x03D9, LowerPair.mk 0x03DA 0x03DB, LowerPair.mk 0x03DC 0x03DD,
  LowerPair.mk 0x03DE 0x03DF, LowerPair.mk 0x03E0 0x03E1, LowerPair.mk 0x03E2 0x03E3,
  LowerPair.mk 0x03E4 0x03E5, LowerPair.mk 0x03E6 0x03E7, LowerPair.mk 0x03E8 0x03E9,
  LowerPair.mk 0x03EA 0x03EB, LowerPair.mk 0x03EC 0x03ED, LowerPair.mk 0x03EE 0x03EF,
  LowerPair.mk 0x03F4 0x03B8, LowerPair.mk 0x03F7 0x03F8, LowerPair.mk 0x03F9 0x03F2,
  LowerPair.mk 0x03FA 0x03FB, LowerPair.mk 0x03FD 0x037B, LowerPair.mk 0x03FE 0x037C,
  LowerPair.mk 0x03FF 0x037D, LowerPair.mk 0x0400 0x0450, LowerPair.mk 0x0401 0x0451,
  LowerPair.mk 0x0402 0x0452, LowerPair.mk 0x0403 0x0453, LowerPair.mk 0x0404 0x0454,
  LowerPair.mk 0x0405 0x0455, LowerPair.mk 0x0406 0x0456, LowerPair.mk 0x0407 0x0457,
  LowerPair.mk 0x0408 0x0458, LowerPair.mk 0x0409 0x0459, LowerPair.mk 0x040A 0x045A,
  LowerPair.mk 0x040B 0x045B, LowerPair.mk 0x040C 0x045C, LowerPair.mk 0x040D 0x045D,
  LowerPair.mk 0x040E 0x045E, LowerPair.mk 0x040F 0x045F, LowerPair.mk 0x0410 0x0430,
  LowerPair.mk 0x0411 0x0431, LowerPair.mk 0x0412 0x0432, LowerPair.mk 0x0413 0x0433,
  LowerPair.mk 0x0414 0x0434, LowerPair.mk 0x0415 0x0435, LowerPair.mk 0x0416 0x0436,
  LowerPair.mk 0x0417 0x0437, LowerPair.mk 0x0418 0x0438, LowerPair.mk 0x0419 0x0439,
  LowerPair.mk 0x041A 0x043A, LowerPair.mk 0x041B 0x043B, LowerPair.mk 0x041C 0x043C,
  LowerPair.mk 0x041D 0x043D, LowerPair.mk 0x041E 0x043E, LowerPair.mk 0x041F 0x043F,
  LowerPair.mk 0x0420 0x0440, LowerPair.mk 0x0421 0x0441, LowerPair.mk 0x0422 0x0442,
  LowerPair.mk 0x0423 0x0443, LowerPair.mk 0x0424 0x0444, LowerPair.mk 0x0425 0x0445,
  LowerPair.mk 0x0426 0x0446, LowerPair.mk 0x0427 0x0447, LowerPair.mk 0x0428 0x0448,
  LowerPair.mk 0x0429 0x0449, LowerPair.mk 0x042A 0x044A, LowerPair.mk 0x042B 0x044B,
  LowerPair.mk 0x042C 0x044C, LowerPair.mk 0x042D 0x044D, LowerPair.mk 0x042E 0x044E,
  LowerPair.mk 0x042F 0x044F, LowerPair.mk 0x0460 0x0461, LowerPair.mk 0x0462 0x0463,
  LowerPair.mk 0x0464 0x0465, LowerPair.mk 0x0466 0x0467, LowerPair.mk 0x0468 0x0469,
  LowerPair.mk 0x046A 0x046B, LowerPair.mk 0x046C 0x046D, LowerPair.mk 0x046E 0x046F,
  LowerPair.mk 0x0470 0x0471, LowerPair.mk 0x0472 0x0473, LowerPair.mk 0x0474 0x0475,
  LowerPair.mk 0x0476 0x0477, LowerPair.mk 0x0478 0x0479, LowerPair.mk 0x047A 0x047B,
  LowerPair.mk 0x047C 0x047D, LowerPair.mk 0x047E 0x047F, LowerPair.mk 0x0480 0x0481,
  LowerPair.mk 0x048A 0x048B, LowerPair.mk 0x048C 0x048D, LowerPair.mk 0x048E 0x048F,
  LowerPair.mk 0x0490 0x0491, LowerPair.mk 0x0492 0x0493, LowerPair.mk 0x0494 0x0495,
  LowerPair.mk 0x0496 0x0497, LowerPair.mk 0x0498 0x0499, LowerPair.mk 0x049A 0x049B,
  LowerPair.mk 0x049C 0x049D, LowerPair.mk 0x049E 0x049F, LowerPair.mk 0x04A0 0x04A1,
  LowerPair.mk 0x04A2 0x04A3, LowerPair.mk 0x04A4 0x04A5, LowerPair.mk 0x04A6 0x04A7,
  LowerPair.mk 0x04A8 0x04A9, LowerPair.mk 0x04AA 0x04AB, LowerPair.mk 0x04AC 0x04AD,
  LowerPair.mk 0x04AE 0x04AF, LowerPair.mk 0x04B0 0x04B1, LowerPair.mk 0x04B2 0x04B3,
  LowerPair.mk 0x04B4 0x04B5, LowerPair.mk 0x04B6 0x04B7, LowerPair.mk 0x04B8 0x04B9,
  LowerPair.mk 0x04BA 0x04BB, LowerPair.mk 0x04BC 0x04BD, LowerPair.mk 0x04BE 0x04BF,
  LowerPair.mk 0x04C0 0x04CF, LowerPair.mk 0x04C1 0x04C2, LowerPair.mk 0x04C3 0x04C4,
  LowerPair.mk 0x04C5 0x04C6, LowerPair.mk 0x04C7 0x04C8, LowerPair.mk 0x04C9 0x04CA,
  LowerPair.mk 0x04CB 0x04CC, LowerPair.mk 0x04CD 0x04CE, LowerPair.mk 0x04D0 0x04D1,
  LowerPair.mk 0x04D2 0x04D3, LowerPair.mk 0x04D4 0x04D5, LowerPair.mk 0x04D6 0x04D7,
  LowerPair.mk 0x04D8 0x04D9, LowerPair.mk 0x04DA 0x04DB, LowerPair.mk 0x04DC 0x04DD,
  LowerPair.mk 0x04DE 0x04DF, LowerPair.mk 0x04E0 0x04E1, LowerPair.mk 0x04E2 0x04E3,
  LowerPair.mk 0x04E4 0x04E5, LowerPair.mk 0x04E6 0x04E7, LowerPair.mk 0x04E8 0x04E9,
  LowerPair.mk 0x04EA 0x04EB, LowerPair.mk 0x04EC 0x04ED, LowerPair.mk 0x04EE 0x04EF,
  LowerPair.mk 0x04F0 0x04F1, LowerPair.mk 0x04F2 0x04F3, LowerPair.mk 0x04F4 0x04F5,
  LowerPair.mk 0x04F6 0x04F7, LowerPair.mk 0x04F8 0x04F9, LowerPair.mk 0x04FA 0x04FB,
  LowerPair.mk 0x04FC 0x04FD, LowerPair.mk 0x04FE 0x04FF, LowerPair.mk 0x0500 0x0501,
  LowerPair.mk 0x0502 0x0503, LowerPair.mk 0x0504 0x0505, LowerPair.mk 0x0506 0x0507,
  LowerPair.mk 0x0508 0x0509, LowerPair.mk 0x050A 0x050B, LowerPair.mk 0x050C 0x050D,
  LowerPair.mk 0x050E 0x050F, LowerPair.mk 0x0510 0x0511, LowerPair.mk 0x0512 0x0513,
  LowerPair.mk 0x0514 0x0515, LowerPair.mk 0x0516 0x0517, LowerPair.mk 0x0518 0x0519,
  LowerPair.mk 0x051A 0x051B, LowerPair.mk 0x051C 0x051D, LowerPair.mk 0x051E 0x051F,
  LowerPair.mk 0x0520 0x0521, LowerPair.mk 0x0522 0x0523, LowerPair.mk 0x0524 0x0525,
  LowerPair.mk 0x0526 0x0527, LowerPair.mk 0x0528 0x0529, LowerPair.mk 0x052A 0x052B,
  LowerPair.mk 0x052C 0x052D, LowerPair.mk 0x052E 0x052F, LowerPair.mk 0x0531 0x0561,
  LowerPair.mk 0x0532 0x0562, LowerPair.mk 0x0533 0x0563, LowerPair.mk 0x0534 0x0564,
  LowerPair.mk 0x0535 0x0565, LowerPair.mk 0x0536 0x0566, LowerPair.mk 0x0537 0x0567,
  LowerPair.mk 0x0538 0x0568, LowerPair.mk 0x0539 0x0569, LowerPair.mk 0x053A 0x056A,
  LowerPair.mk 0x053B 0x056B, LowerPair.mk 0x053C 0x056C, LowerPair.mk 0x053D 0x056D,
  LowerPair.mk 0x053E 0x056E, LowerPair.mk 0x053F 0x056F, LowerPair.mk 0x0540 0x0570,
  LowerPair.mk 0x0541 0x0571, LowerPair.mk 0x0542 0x0572, LowerPair.mk 0x0543 0x0573,
  LowerPair.mk 0x0544 0x0574, LowerPair.mk 0x0545 0x0575, LowerPair.mk 0x0546 0x0576,
  LowerPair.mk 0x0547 0x0577, LowerPair.mk 0x0548 0x0578, LowerPair.mk 0x0549 0x0579,
  LowerPair.mk 0x054A 0x057A, LowerPair.mk 0x054B 0x057B, LowerPair.mk 0x054C 0x057C,
  LowerPair.mk 0x054D 0x057D, LowerPair.mk 0x054E 0x057E, LowerPair.mk 0x054F 0x057F,
  LowerPair.mk 0x0550 0x0580, LowerPair.mk 0x0551 0x0581, LowerPair.mk 0x0552 0x0582,
  LowerPair.mk 0x0553 0x0583, LowerPair.mk 0x0554 0x0584, LowerPair.mk 0x0555 0x0585,
  LowerPair.mk 0x0556 0x0586, LowerPair.mk 0x10A0 0x2D00, LowerPair.mk 0x10A1 0x2D01,
  LowerPair.mk 0x10A2 0x2D02, LowerPair.mk 0x10A3 0x2D03, LowerPair.mk 0x10A4 0x2D04,
  LowerPair.mk 0x10A5 0x2D05, LowerPair.mk 0x10A6 0x2D06, LowerPair.mk 0x10A7 0x2D07,
  LowerPair.mk 0x10A8 0x2D08, LowerPair.mk 0x10A9 0x2D09, LowerPair.mk 0x10AA 0x2D0A,
  LowerPair.mk 0x10AB 0x2D0B, LowerPair.mk 0x10AC 0x2D0C, LowerPair.mk 0x10AD 0x2D0D,
  LowerPair.mk 0x10AE 0x2D0E, LowerPair.mk 0x10AF 0x2D0F, LowerPair.mk 0x10B0 0x2D10,
  LowerPair.mk 0x10B1 0x2D11, LowerPair.mk 0x10B2 0x2D12, LowerPair.mk 0x10B3 0x2D13,
  LowerPair.mk 0x10B4 0x2D14, LowerPair.mk 0x10B5 0x2D15, LowerPair.mk 0x10B6 0x2D16,
  LowerPair.mk 0x10B7 0x2D17, LowerPair.mk 0x10B8 0x2D18, LowerPair.mk 0x10B9 0x2D19,
  LowerPair.mk 0x10BA 0x2D1A, LowerPair.mk 0x10BB 0x2D1B, LowerPair.mk 0x10BC 0x2D1C,
  LowerPair.mk 0x10BD 0x2D1D, LowerPair.mk 0x10BE 0x2D1E, LowerPair.mk 0x10BF 0x2D1F,
  LowerPair.mk 0x10C0 0x2D20, LowerPair.mk 0x10C1 0x2D21, LowerPair.mk 0x10C2 0x2D22,
  LowerPair.mk 0x10C3 0x2D23, LowerPair.mk 0x10C4 0x2D24, LowerPair.mk 0x10C5 0x2D25,
  LowerPair.mk 0x10C7 0x2D27, LowerPair.mk 0x10CD 0x2D2D, LowerPair.mk 0x13A0 0xAB70,
  LowerPair.mk 0x13A1 0xAB71, LowerPair.mk 0x13A2 0xAB72, LowerPair.mk 0x13A3 0xAB73,
  LowerPair.mk 0x13A4 0xAB74, LowerPair.mk 0x13A5 0xAB75, LowerPair.mk 0x13A6 0xAB76,
  LowerPair.mk 0x13A7 0xAB77, LowerPair.mk 0x13A8 0xAB78, LowerPair.mk 0x13A9 0xAB79,
  LowerPair.mk 0x13AA 0xAB7A, LowerPair.mk 0x13AB 0xAB7B, LowerPair.mk 0x13AC 0xAB7C,
  LowerPair.mk 0x13AD 0xAB7D, LowerPair.mk 0x13AE 0xAB7E, LowerPair.mk 0x13AF 0xAB7F,
  LowerPair.mk 0x13B0 0xAB80, LowerPair.mk 0x13B1 0xAB81, LowerPair.mk 0x13B2 0xAB82,
  LowerPair.mk 0x13B3 0xAB83, LowerPair.mk 0x13B4 0xAB84, LowerPair.mk 0x13B5 0xAB85,
  LowerPair.mk 0x13B6 0xAB86, LowerPair.mk 0x13B7 0xAB87, LowerPair.mk 0x13B8 0xAB88,
  LowerPair.mk 0x13B9 0xAB89, LowerPair.mk 0x13BA 0xAB8A, LowerPair.mk 0x13BB 0xAB8B,
  LowerPair.mk 0x13BC 0xAB8C, LowerPair.mk 0x13BD 0xAB8D, LowerPair.mk 0x13BE 0xAB8E,
  LowerPair.mk 0x13BF 0xAB8F, LowerPair.mk 0x13C0 0xAB90, LowerPair.mk 0x13C1 0xAB91,
  LowerPair.mk 0x13C2 0xAB92, LowerPair.mk 0x13C3 0xAB93, LowerPair.mk 0x13C4 0xAB94,
  LowerPair.mk 0x13C5 0xAB95, LowerPair.mk 0x13C6 0xAB96, LowerPair.mk 0x13C7 0xAB97,
  LowerPair.mk 0x13C8 0xAB98, LowerPair.mk 0x13C9 0xAB99, LowerPair.mk 0x13CA 0xAB9A,
  LowerPair.mk 0x13CB 0xAB9B, LowerPair.mk 0x13CC 0xAB9C, LowerPair.mk 0x13CD 0xAB9D,
  LowerPair.mk 0x13CE 0xAB9E, LowerPair.mk 0x13CF 0xAB9F, LowerPair.mk 0x13D0 0xABA0,
  LowerPair.mk 0x13D1 0xABA1, LowerPair.mk 0x13D2 0xABA2, LowerPair.mk 0x13D3 0xABA3,
  LowerPair.mk 0x13D4 0xABA4, LowerPair.mk 0x13D5 0xABA5, LowerPair.mk 0x13D6 0xABA6,
  LowerPair.mk 0x13D7 0xABA7, LowerPair.mk 0x13D8 0xABA8, LowerPair.mk 0x13D9 0xABA9,
  LowerPair.mk 0x13DA 0xABAA, LowerPair.mk 0x13DB 0xABAB, LowerPair.mk 0x13DC 0xABAC,
  LowerPair.mk 0x13DD 0xABAD, LowerPair.mk 0x13DE 0xABAE, LowerPair.mk 0x13DF 0xABAF,
  LowerPair.mk 0x13E0 0xABB0, LowerPair.mk 0x13E1 0xABB1, LowerPair.mk 0x13E2 0xABB2,
  LowerPair.mk 0x13E3 0xABB3, LowerPair.mk 0x13E4 0xABB4, LowerPair.mk 0x13E5 0xABB5,
  LowerPair.mk 0x13E6 0xABB6, LowerPair.mk 0x13E7 0xABB7, LowerPair.mk 0x13E8 0xABB8,
  LowerPair.mk 0x13E9 0xABB9, LowerPair.mk 0x13EA 0xABBA, LowerPair.mk 0x13EB 0xABBB,
  LowerPair.mk 0x13EC 0xABBC, LowerPair.mk 0x13ED 0xABBD, LowerPair.mk 0x13EE 0xABBE,
  LowerPair.mk 0x13EF 0xABBF, LowerPair.mk 0x13F0 0x13F8, LowerPair.mk 0x13F1 0x13F9,
  LowerPair.mk 0x13F2 0x13FA, LowerPair.mk 0x13F3 0x13FB, LowerPair.mk 0x13F4 0x13FC,
  LowerPair.mk 0x13F5 0x13FD, LowerPair.mk 0x1C90 0x10D0, LowerPair.mk 0x1C91 0x10D1,
  LowerPair.mk 0x1C92 0x10D2, LowerPair.mk 0x1C93 0x10D3, LowerPair.mk 0x1C94 0x10D4,
  LowerPair.mk 0x1C95 0x10D5, LowerPair.mk 0x1C96 0x10D6, LowerPair.mk 0x1C97 0x10D7,
  LowerPair.mk 0x1C98 0x10D8, LowerPair.mk 0x1C99 0x10D9, LowerPair.mk 0x1C9A 0x10DA,
  LowerPair.mk 0x1C9B 0x10DB, LowerPair.mk 0x1C9C 0x10DC, LowerPair.mk 0x1C9D 0x10DD,
  LowerPair.mk 0x1C9E 0x10DE, LowerPair.mk 0x1C9F 0x10DF, LowerPair.mk 0x1CA0 0x10E0,
  LowerPair.mk 0x1CA1 0x10E1, LowerPair.mk 0x1CA2 0x10E2, LowerPair.mk 0x1CA3 0x10E3,
  LowerPair.mk 0x1CA4 0x10E4, LowerPair.mk 0x1CA5 0x10E5, LowerPair.mk 0x1CA6 0x10E6,
  LowerPair.mk 0x1CA7 0x10E7, LowerPair.mk 0x1CA8 0x10E8, LowerPair.mk 0x1CA9 0x10E9,
  LowerPair.mk 0x1CAA 0x10EA, LowerPair.mk 0x1CAB 0x10EB, LowerPair.mk 0x1CAC 0x10EC,
  LowerPair.mk 0x1CAD 0x10ED, LowerPair.mk 0x1CAE 0x10EE, LowerPair.mk 0x1CAF 0x10EF,
  LowerPair.mk 0x1CB0 0x10F0, LowerPair.mk 0x1CB1 0x10F1, LowerPair.mk 0x1CB2 0x10F2,
  LowerPair.mk 0x1CB3 0x10F3, LowerPair.mk 0x1CB4 0x10F4, LowerPair.mk 0x1CB5 0x10F5,
  LowerPair.mk 0x1CB6 0x10F6, LowerPair.mk 0x1CB7 0x10F7, LowerPair.mk 0x1CB8 0x10F8,
  LowerPair.mk 0x1CB9 0x10F9, LowerPair.mk 0x1CBA 0x10FA, LowerPair.mk 0x1CBD 0x10FD,
  LowerPair.mk 0x1CBE 0x10FE, LowerPair.mk 0x1CBF 0x10FF, LowerPair.mk 0x1E00 0x1E01,
  LowerPair.mk 0x1E02 0x1E03, LowerPair.mk 0x1E04 0x1E05, LowerPair.mk 0x1E06 0x1E07,
  LowerPair.mk 0x1E08 0x1E09, LowerPair.mk 0x1E0A 0x1E0B, LowerPair.mk 0x1E0C 0x1E0D,
  LowerPair.mk 0x1E0E 0x1E0F, LowerPair.mk 0x1E10 0x1E11, LowerPair.mk 0x1E12 0x1E13,
  LowerPair.mk 0x1E14 0x1E15, LowerPair.mk 0x1E16 0x1E17, LowerPair.mk 0x1E18 0x1E19,
  LowerPair.mk 0x1E1A 0x1E1B, LowerPair.mk 0x1E1C 0x1E1D, LowerPair.mk 0x1E1E 0x1E1F,
  LowerPair.mk 0x1E20 0x1E21, LowerPair.mk 0x1E22 0x1E23, LowerPair.mk 0x1E24 0x1E25,
  LowerPair.mk 0x1E26 0x1E27, LowerPair.mk 0x1E28 0x1E29, LowerPair.mk 0x1E2A 0x1E2B,
  LowerPair.mk 0x1E2C 0x1E2D, LowerPair.mk 0x1E2E 0x1E2F, LowerPair.mk 0x1E30 0x1E31,
  LowerPair.mk 0x1E32 0x1E33, LowerPair.mk 0x1E34 0x1E35, LowerPair.mk 0x1E36 0x1E37,
  LowerPair.mk 0x1E38 0x1E39, LowerPair.mk 0x1E3A 0x1E3B, LowerPair.mk 0x1E3C 0x1E3D,
  LowerPair.mk 0x1E3E 0x1E3F, LowerPair.mk 0x1E40 0x1E41, LowerPair.mk 0x1E42 0x1E43,
  LowerPair.mk 0x1E44 0x1E45, LowerPair.mk 0x1E46 0x1E47, LowerPair.mk 0x1E48 0x1E49,
  LowerPair.mk 0x1E4A 0x1E4B, LowerPair.mk 0x1E4C 0x1E4D, LowerPair.mk 0x1E4E 0x1E4F,
  LowerPair.mk 0x1E50 0x1E51, LowerPair.mk 0x1E52 0x1E53, LowerPair.mk 0x1E54 0x1E55,
  LowerPair.mk 0x1E56 0x1E57, LowerPair.mk 0x1E58 0x1E59, LowerPair.mk 0x1E5A 0x1E5B,
  LowerPair.mk 0x1E5C 0x1E5D, LowerPair.mk 0x1E5E 0x1E5F, LowerPair.mk 0x1E60 0x1E61,
  LowerPair.mk 0x1E62 0x1E63, LowerPair.mk 0x1E64 0x1E65, LowerPair.mk 0x1E66 0x1E67,
  LowerPair.mk 0x1E68 0x1E69, LowerPair.mk 0x1E6A 0x1E6B, LowerPair.mk 0x1E6C 0x1E6D,
  LowerPair.mk 0x1E6E 0x1E6F, LowerPair.mk 0x1E70 0x1E71, LowerPair.mk 0x1E72 0x1E73,
  LowerPair.mk 0x1E74 0x1E75, LowerPair.mk 0x1E76 0x1E77, LowerPair.mk 0x1E78 0x1E79,
  LowerPair.mk 0x1E7A 0x1E7B, LowerPair.mk 0x1E7C 0x1E7D, LowerPair.mk 0x1E7E 0x1E7F,
  LowerPair.mk 0x1E80 0x1E81, LowerPair.mk 0x1E82 0x1E83, LowerPair.mk 0x1E84 0x1E85,
  LowerPair.mk 0x1E86 0x1E87, LowerPair.mk 0x1E88 0x1E89, LowerPair.mk 0x1E8A 0x1E8B,
  LowerPair.mk 0x1E8C 0x1E8D, LowerPair.mk 0x1E8E 0x1E8F, LowerPair.mk 0x1E90 0x1E91,
  LowerPair.mk 0x1E92 0x1E93, LowerPair.mk 0x1E94 0x1E95, LowerPair.mk 0x1E9E 0x00DF,
  LowerPair.mk 0x1EA0 0x1EA1, LowerPair.mk 0x1EA2 0x1EA3, LowerPair.mk 0x1EA4 0x1EA5,
  LowerPair.mk 0x1EA6 0x1EA7, LowerPair.mk 0x1EA8 0x1EA9, LowerPair.mk 0x1EAA 0x1EAB,
  LowerPair.mk 0x1EAC 0x1EAD, LowerPair.mk 0x1EAE 0x1EAF, LowerPair.mk 0x1EB0 0x1EB1,
  LowerPair.mk 0x1EB2 0x1EB3, LowerPair.mk 0x1EB4 0x1EB5, LowerPair.mk 0x1EB6 0x1EB7,
  LowerPair.mk 0x1EB8 0x1EB9, LowerPair.mk 0x1EBA 0x1EBB, LowerPair.mk 0x1EBC 0x1EBD,
  LowerPair.mk 0x1EBE 0x1EBF, LowerPair.mk 0x1EC0 0x1EC1, LowerPair.mk 0x1EC2 0x1EC3,
  LowerPair.mk 0x1EC4 0x1EC5, LowerPair.mk 0x1EC6 0x1EC7, LowerPair.mk 0x1EC8 0x1EC9,
  LowerPair.mk 0x1ECA 0x1ECB, LowerPair.mk 0x1ECC 0x1ECD, LowerPair.mk 0x1ECE 0x1ECF,
  LowerPair.mk 0x1ED0 0x1ED1, LowerPair.mk 0x1ED2 0x1ED3, LowerPair.mk 0x1ED4 0x1ED5,
  LowerPair.mk 0x1ED6 0x1ED7, LowerPair.mk 0x1ED8 0x1ED9, LowerPair.mk 0x1EDA 0x1EDB,
  LowerPair.mk 0x1EDC 0x1EDD, LowerPair.mk 0x1EDE 0x1EDF, LowerPair.mk 0x1EE0 0x1EE1,
  LowerPair.mk 0x1EE2 0x1EE3, LowerPair.mk 0x1EE4 0x1EE5, LowerPair.mk 0x1EE6 0x1EE7,
  LowerPair.mk 0x1EE8 0x1EE9, LowerPair.mk 0x1EEA 0x1EEB, LowerPair.mk 0x1EEC 0x1EED,
  LowerPair.mk 0x1EEE 0x1EEF, LowerPair.mk 0x1EF0 0x1EF1, LowerPair.mk 0x1EF2 0x1EF3,
  LowerPair.mk 0x1EF4 0x1EF5, LowerPair.mk 0x1EF6 0x1EF7, LowerPair.mk 0x1EF8 0x1EF9,
  LowerPair.mk 0x1EFA 0x1EFB, LowerPair.mk 0x1EFC 0x1EFD, LowerPair.mk 0x1EFE 0x1EFF,
  LowerPair.mk 0x1F08 0x1F00, LowerPair.mk 0x1F09 0x1F01, LowerPair.mk 0x1F0A 0x1F02,
  LowerPair.mk 0x1F0B 0x1F03, LowerPair.mk 0x1F0C 0x1F04, LowerPair.mk 0x1F0D 0x1F05,
  LowerPair.mk 0x1F0E 0x1F06, LowerPair.mk 0x1F0F 0x1F07, LowerPair.mk 0x1F18 0x1F10,
  LowerPair.mk 0x1F19 0x1F11, LowerPair.mk 0x1F1A 0x1F12, LowerPair.mk 0x1F1B 0x1F13,
  LowerPair.mk 0x1F1C 0x1F14, LowerPair.mk 0x1F1D 0x1F15, LowerPair.mk 0x1F28 0x1F20,
  LowerPair.mk 0x1F29 0x1F21, LowerPair.mk 0x1F2A 0x1F22, LowerPair.mk 0x1F2B 0x1F23,
  LowerPair.mk 0x1F2C 0x1F24, LowerPair.mk 0x1F2D 0x1F25, LowerPair.mk 0x1F2E 0x1F26,
  LowerPair.mk 0x1F2F 0x1F27, LowerPair.mk 0x1F38 0x1F30, LowerPair.mk 0x1F39 0x1F31,
  LowerPair.mk 0x1F3A 0x1F32, LowerPair.mk 0x1F3B 0x1F33, LowerPair.mk 0x1F3C 0x1F34,
  LowerPair.mk 0x1F3D 0x1F35, LowerPair.mk 0x1F3E 0x1F36, LowerPair.mk 0x1F3F 0x1F37,
  LowerPair.mk 0x1F48 0x1F40, LowerPair.mk 0x1F49 0x1F41, LowerPair.mk 0x1F4A 0x1F42,
  LowerPair.mk 0x1F4B 0x1F43, LowerPair.mk 0x1F4C 0x1F44, LowerPair.mk 0x1F4D 0x1F45,
  LowerPair.mk 0x1F59 0x1F51, LowerPair.mk 0x1F5B 0x1F53, LowerPair.mk 0x1F5D 0x1F55,
  LowerPair.mk 0x1F5F 0x1F57, LowerPair.mk 0x1F68 0x1F60, LowerPair.mk 0x1F69 0x1F61,
  LowerPair.mk 0x1F6A 0x1F62, LowerPair.mk 0x1F6B 0x1F63, LowerPair.mk 0x1F6C 0x1F64,
  LowerPair.mk 0x1F6D 0x1F65, LowerPair.mk 0x1F6E 0x1F66, LowerPair.mk 0x1F6F 0x1F67,
  LowerPair.mk 0x1F88 0x1F80, LowerPair.mk 0x1F89 0x1F81, LowerPair.mk 0x1F8A 0x1F82,
  LowerPair.mk 0x1F8B 0x1F83, LowerPair.mk 0x1F8C 0x1F84, LowerPair.mk 0x1F8D 0x1F85,
  LowerPair.mk 0x1F8E 0x1F86, LowerPair.mk 0x1F8F 0x1F87, LowerPair.mk 0x1F98 0x1F90,
  LowerPair.mk 0x1F99 0x1F91, LowerPair.mk 0x1F9A 0x1F92, LowerPair.mk 0x1F9B 0x1F93,
  LowerPair.mk 0x1F9C 0x1F94, LowerPair.mk 0x1F9D 0x1F95, LowerPair.mk 0x1F9E 0x1F96,
  LowerPair.mk 0x1F9F 0x1F97, LowerPair.mk 0x1FA8 0x1FA0, LowerPair.mk 0x1FA9 0x1FA1,
  LowerPair.mk 0x1FAA 0x1FA2, LowerPair.mk 0x1FAB 0x1FA3, LowerPair.mk 0x1FAC 0x1FA4,
  LowerPair.mk 0x1FAD 0x1FA5, LowerPair.mk 0x1FAE 0x1FA6, LowerPair.mk 0x1FAF 0x1FA7,
  LowerPair.mk 0x1FB8 0x1FB0, LowerPair.mk 0x1FB9 0x1FB1, LowerPair.mk 0x1FBA 0x1F70,
  LowerPair.mk 0x1FBB 0x1F71, LowerPair.mk 0x1FBC 0x1FB3, LowerPair.mk 0x1FC8 0x1F72,
  LowerPair.mk 0x1FC9 0x1F73, LowerPair.mk 0x1FCA 0x1F74, LowerPair.mk 0x1FCB 0x1F75,
  LowerPair.mk 0x1FCC 0x1FC3, LowerPair.mk 0x1FD8 0x1FD0, LowerPair.mk 0x1FD9 0x1FD1,
  LowerPair.mk 0x1FDA 0x1F76, LowerPair.mk 0x1FDB 0x1F77, LowerPair.mk 0x1FE8 0x1FE0,
  LowerPair.mk 0x1FE9 0x1FE1, LowerPair.mk 0x1FEA 0x1F7A, LowerPair.mk 0x1FEB 0x1F7B,
  LowerPair.mk 0x1FEC 0x1FE5, LowerPair.mk 0x1FF8 0x1F78, LowerPair.mk 0x1FF9 0x1F79,
  LowerPair.mk 0x1FFA 0x1F7C, LowerPair.mk 0x1FFB 0x1F7D, LowerPair.mk 0x1FFC 0x1FF3,
  LowerPair.mk 0x2126 0x03C9, LowerPair.mk 0x212A 0x006B, LowerPair.mk 0x212B 0x00E5,
  LowerPair.mk 0x2132 0x214E, LowerPair.mk 0x2160 0x2170, LowerPair.mk 0x2161 0x2171,
  LowerPair.mk 0x2162 0x2172, LowerPair.mk 0x2163 0x2173, LowerPair.mk 0x2164 0x2174,
  LowerPair.mk 0x2165 0x2175, LowerPair.mk 0x2166 0x2176, LowerPair.mk 0x2167 0x2177,
  LowerPair.mk 0x2168 0x2178, LowerPair.mk 0x2169 0x2179, LowerPair.mk 0x216A 0x217A,
  LowerPair.mk 0x216B 0x217B, LowerPair.mk 0x216C 0x217C, LowerPair.mk 0x216D 0x217D,
  LowerPair.mk 0x216E 0x217E, LowerPair.mk 0x216F 0x217F, LowerPair.mk 0x2183 0x2184,
  LowerPair.mk 0x24B6 0x24D0, LowerPair.mk 0x24B7 0x24D1, LowerPair.mk 0x24B8 0x24D2,
  LowerPair.mk 0x24B9 0x24D3, LowerPair.mk 0x24BA 0x24D4, LowerPair.mk 0x24BB 0x24D5,
  LowerPair.mk 0x24BC 0x24D6, LowerPair.mk 0x24BD 0x24D7, LowerPair.mk 0x24BE 0x24D8,
  LowerPair.mk 0x24BF 0x24D9, LowerPair.mk 0x24C0 0x24DA, LowerPair.mk 0x24C1 0x24DB,
  LowerPair.mk 0x24C2 0x24DC, LowerPair.mk 0x24C3 0x24DD, LowerPair.mk 0x24C4 0x24DE,
  LowerPair.mk 0x24C5 0x24DF, LowerPair.mk 0x24C6 0x24E0, LowerPair.mk 0x24C7 0x24E1,
  LowerPair.mk 0x24C8 0x24E2, LowerPair.mk 0x24C9 0x24E3, LowerPair.mk 0x24CA 0x24E4,
  LowerPair.mk 0x24CB 0x24E5, LowerPair.mk 0x24CC 0x24E6, LowerPair.mk 0x24CD 0x24E7,
  LowerPair.mk 0x24CE 0x24E8, LowerPair.mk 0x24CF 0x24E9, LowerPair.mk 0x2C00 0x2C30,
  LowerPair.mk 0x2C01 0x2C31, LowerPair.mk 0x2C02 0x2C32, LowerPair.mk 0x2C03 0x2C33,
  LowerPair.mk 0x2C04 0x2C34, LowerPair.mk 0x2C05 0x2C35, LowerPair.mk 0x2C06 0x2C36,
  LowerPair.mk 0x2C07 0x2C37, LowerPair.mk 0x2C08 0x2C38, LowerPair.mk 0x2C09 0x2C39,
  LowerPair.mk 0x2C0A 0x2C3A, LowerPair.mk 0x2C0B 0x2C3B, LowerPair.mk 0x2C0C 0x2C3C,
  LowerPair.mk 0x2C0D 0x2C3D, LowerPair.mk 0x2C0E 0x2C3E, LowerPair.mk 0x2C0F 0x2C3F,
  LowerPair.mk 0x2C10 0x2C40, LowerPair.mk 0x2C11 0x2C41, LowerPair.mk 0x2C12 0x2C42,
  LowerPair.mk 0x2C13 0x2C43, LowerPair.mk 0x2C14 0x2C44, LowerPair.mk 0x2C15 0x2C45,
  LowerPair.mk 0x2C16 0x2C46, LowerPair.mk 0x2C17 0x2C47, LowerPair.mk 0x2C18 0x2C48,
  LowerPair.mk 0x2C19 0x2C49, LowerPair.mk 0x2C1A 0x2C4A, LowerPair.mk 0x2C1B 0x2C4B,
  LowerPair.mk 0x2C1C 0x2C4C, LowerPair.mk 0x2C1D 0x2C4D, LowerPair.mk 0x2C1E 0x2C4E,
  LowerPair.mk 0x2C1F 0x2C4F, LowerPair.mk 0x2C20 0x2C50, LowerPair.mk 0x2C21 0x2C51,
  LowerPair.mk 0x2C22 0x2C52, LowerPair.mk 0x2C23 0x2C53, LowerPair.mk 0x2C24 0x2C54,
  LowerPair.mk 0x2C25 0x2C55, LowerPair.mk 0x2C26 0x2C56, LowerPair.mk 0x2C27 0x2C57,
  LowerPair.mk 0x2C28 0x2C58, LowerPair.mk 0x2C29 0x2C59, LowerPair.mk 0x2C2A 0x2C5A,
  LowerPair.mk 0x2C2B 0x2C5B, LowerPair.mk 0x2C2C 0x2C5C, LowerPair.mk 0x2C2D 0x2C5D,
  LowerPair.mk 0x2C2E 0x2C5E, LowerPair.mk 0x2C2F 0x2C5F, LowerPair.mk 0x2C60 0x2C61,
  LowerPair.mk 0x2C62 0x026B, LowerPair.mk 0x2C63 0x1D7D, LowerPair.mk 0x2C64 0x027D,
  LowerPair.mk 0x2C67 0x2C68, LowerPair.mk 0x2C69 0x2C6A, LowerPair.mk 0x2C6B 0x2C6C,
  LowerPair.mk 0x2C6D 0x0251, LowerPair.mk 0x2C6E 0x0271, LowerPair.mk 0x2C6F 0x0250,
  LowerPair.mk 0x2C70 0x0252, LowerPair.mk 0x2C72 0x2C73, LowerPair.mk 0x2C75 0x2C76,
  LowerPair.mk 0x2C7E 0x023F, LowerPair.mk 0x2C7F 0x0240, LowerPair.mk 0x2C80 0x2C81,
  LowerPair.mk 0x2C82 0x2C83, LowerPair.mk 0x2C84 0x2C85, LowerPair.mk 0x2C86 0x2C87,
  LowerPair.mk 0x2C88 0x2C89, LowerPair.mk 0x2C8A 0x2C8B, LowerPair.mk 0x2C8C 0x2C8D,
  LowerPair.mk 0x2C8E 0x2C8F, LowerPair.mk 0x2C90 0x2C91, LowerPair.mk 0x2C92 0x2C93,
  LowerPair.mk 0x2C94 0x2C95, LowerPair.mk 0x2C96 0x2C97, LowerPair.mk 0x2C98 0x2C99,
  LowerPair.mk 0x2C9A 0x2C9B, LowerPair.mk 0x2C9C 0x2C9D, LowerPair.mk 0x2C9E 0x2C9F,
  LowerPair.mk 0x2CA0 0x2CA1, LowerPair.mk 0x2CA2 0x2CA3, LowerPair.mk 0x2CA4 0x2CA5,
  LowerPair.mk 0x2CA6 0x2CA7, LowerPair.mk 0x2CA8 0x2CA9, LowerPair.mk 0x2CAA 0x2CAB,
  LowerPair.mk 0x2CAC 0x2CAD, LowerPair.mk 0x2CAE 0x2CAF, LowerPair.mk 0x2CB0 0x2CB1,
  LowerPair.mk 0x2CB2 0x2CB3, LowerPair.mk 0x2CB4 0x2CB5, LowerPair.mk 0x2CB6 0x2CB7,
  LowerPair.mk 0x2CB8 0x2CB9, LowerPair.mk 0x2CBA 0x2CBB, LowerPair.mk 0x2CBC 0x2CBD,
  LowerPair.mk 0x2CBE 0x2CBF, LowerPair.mk 0x2CC0 0x2CC1, LowerPair.mk 0x2CC2 0x2CC3,
  LowerPair.mk 0x2CC4 0x2CC5, LowerPair.mk 0x2CC6 0x2CC7, LowerPair.mk 0x2CC8 0x2CC9,
  LowerPair.mk 0x2CCA 0x2CCB, LowerPair.mk 0x2CCC 0x2CCD, LowerPair.mk 0x2CCE 0x2CCF,
  LowerPair.mk 0x2CD0 0x2CD1, LowerPair.mk 0x2CD2 0x2CD3, LowerPair.mk 0x2CD4 0x2CD5,
  LowerPair.mk 0x2CD6 0x2CD7, LowerPair.mk 0x2CD8 0x2CD9, LowerPair.mk 0x2CDA 0x2CDB,
  LowerPair.mk 0x2CDC 0x2CDD, LowerPair.mk 0x2CDE 0x2CDF, LowerPair.mk 0x2CE0 0x2CE1,
  LowerPair.mk 0x2CE2 0x2CE3, LowerPair.mk 0x2CEB 0x2CEC, LowerPair.mk 0x2CED 0x2CEE,
  LowerPair.mk 0x2CF2 0x2CF3, LowerPair.mk 0xA640 0xA641, LowerPair.mk 0xA642 0xA643,
  LowerPair.mk 0xA644 0xA645, LowerPair.mk 0xA646 0xA647, LowerPair.mk 0xA648 0xA649,
  LowerPair.mk 0xA64A 0xA64B, LowerPair.mk 0xA64C 0xA64D, LowerPair.mk 0xA64E 0xA64F,
  LowerPair.mk 0xA650 0xA651, LowerPair.mk 0xA652 0xA653, LowerPair.mk 0xA654 0xA655,
  LowerPair.mk 0xA656 0xA657, LowerPair.mk 0xA658 0xA659, LowerPair.mk 0xA65A 0xA65B,
  LowerPair.mk 0xA65C 0xA65D, LowerPair.mk 0xA65E 0xA65F, LowerPair.mk 0xA660 0xA661,
  LowerPair.mk 0xA662 0xA663, LowerPair.mk 0xA664 0xA665, LowerPair.mk 0xA666 0xA667,
  LowerPair.mk 0xA668 0xA669, LowerPair.mk 0xA66A 0xA66B, LowerPair.mk 0xA66C 0xA66D,
  LowerPair.mk 0xA680 0xA681, LowerPair.mk 0xA682 0xA683, LowerPair.mk 0xA684 0xA685,
  LowerPair.mk 0xA686 0xA687, LowerPair.mk 0xA688 0xA689, LowerPair.mk 0xA68A 0xA68B,
  LowerPair.mk 0xA68C 0xA68D, LowerPair.mk 0xA68E 0xA68F, LowerPair.mk 0xA690 0xA691,
  LowerPair.mk 0xA692 0xA693, LowerPair.mk 0xA694 0xA695, LowerPair.mk 0xA696 0xA697,
  LowerPair.mk 0xA698 0xA699, LowerPair.mk 0xA69A 0xA69B, LowerPair.mk 0xA722 0xA723,
  LowerPair.mk 0xA724 0xA725, LowerPair.mk 0xA726 0xA727, LowerPair.mk 0xA728 0xA729,
  LowerPair.mk 0xA72A 0xA72B, LowerPair.mk 0xA72C 0xA72D, LowerPair.mk 0xA72E 0xA72F,
  LowerPair.mk 0xA732 0xA733, LowerPair.mk 0xA734 0xA735, LowerPair.mk 0xA736 0xA737,
  LowerPair.mk 0xA738 0xA739, LowerPair.mk 0xA73A 0xA73B, LowerPair.mk 0xA73C 0xA73D,
  LowerPair.mk 0xA73E 0xA73F, LowerPair.mk 0xA740 0xA741, LowerPair.mk 0xA742 0xA743,
  LowerPair.mk 0xA744 0xA745, LowerPair.mk 0xA746 0xA747, LowerPair.mk 0xA748 0xA749,
  LowerPair.mk 0xA74A 0xA74B, LowerPair.mk 0xA74C 0xA74D, LowerPair.mk 0xA74E 0xA74F,
  LowerPair.mk 0xA750 0xA751, LowerPair.mk 0xA752 0xA753, LowerPair.mk 0xA754 0xA755,
  LowerPair.mk 0xA756 0xA757, LowerPair.mk 0xA758 0xA759, LowerPair.mk 0xA75A 0xA75B,
  LowerPair.mk 0xA75C 0xA75D, LowerPair.mk 0xA75E 0xA75F, LowerPair.mk 0xA760 0xA761,
  LowerPair.mk 0xA762 0xA763, LowerPair.mk 0xA764 0xA765, LowerPair.mk 0xA766 0xA767,
  LowerPair.mk 0xA768 0xA769, LowerPair.mk 0xA76A 0xA76B, LowerPair.mk 0xA76C 0xA76D,
  LowerPair.mk 0xA76E 0xA76F, LowerPair.mk 0xA779 0xA77A, LowerPair.mk 0xA77B 0xA77C,
  LowerPair.mk 0xA77D 0x1D79, LowerPair.mk 0xA77E 0xA77F, LowerPair.mk 0xA780 0xA781,
  LowerPair.mk 0xA782 0xA783, LowerPair.mk 0xA784 0xA785, LowerPair.mk 0xA786 0xA787,
  LowerPair.mk 0xA78B 0xA78C, LowerPair.mk 0xA78D 0x0265, LowerPair.mk 0xA790 0xA791,
  LowerPair.mk 0xA792 0xA793, LowerPair.mk 0xA796 0xA797, LowerPair.mk 0xA798 0xA799,
  LowerPair.mk 0xA79A 0xA79B, LowerPair.mk 0xA79C 0xA79D, LowerPair.mk 0xA79E 0xA79F,
  LowerPair.mk 0xA7A0 0xA7A1, LowerPair.mk 0xA7A2 0xA7A3, LowerPair.mk 0xA7A4 0xA7A5,
  LowerPair.mk 0xA7A6 0xA7A7, LowerPair.mk 0xA7A8 0xA7A9, LowerPair.mk 0xA7AA 0x0266,
  LowerPair.mk 0xA7AB 0x025C, LowerPair.mk 0xA7AC 0x0261, LowerPair.mk 0xA7AD 0x026C,
  LowerPair.mk 0xA7AE 0x026A, LowerPair.mk 0xA7B0 0x029E, LowerPair.mk 0xA7B1 0x0287,
  LowerPair.mk 0xA7B2 0x029D, LowerPair.mk 0xA7B3 0xAB53, LowerPair.mk 0xA7B4 0xA7B5,
  LowerPair.mk 0xA7B6 0xA7B7, LowerPair.mk 0xA7B8 0xA7B9, LowerPair.mk 0xA7BA 0xA7BB,
  LowerPair.mk 0xA7BC 0xA7BD, LowerPair.mk 0xA7BE 0xA7BF, LowerPair.mk 0xA7C0 0xA7C1,
  LowerPair.mk 0xA7C2 0xA7C3, LowerPair.mk 0xA7C4 0xA794, LowerPair.mk 0xA7C5 0x0282,
  LowerPair.mk 0xA7C6 0x1D8E, LowerPair.mk 0xA7C7 0xA7C8, LowerPair.mk 0xA7C9 0xA7CA,
  LowerPair.mk 0xA7D0 0xA7D1, LowerPair.mk 0xA7D6 0xA7D7, LowerPair.mk 0xA7D8 0xA7D9,
  LowerPair.mk 0xA7F5 0xA7F6, LowerPair.mk 0xFF21 0xFF41, LowerPair.mk 0xFF22 0xFF42,
  LowerPair.mk 0xFF23 0xFF43, LowerPair.mk 0xFF24 0xFF44, LowerPair.mk 0xFF25 0xFF45,
  LowerPair.mk 0xFF26 0xFF46, LowerPair.mk 0xFF27 0xFF47, LowerPair.mk 0xFF28 0xFF48,
  LowerPair.mk 0xFF29 0xFF49, LowerPair.mk 0xFF2A 0xFF4A, LowerPair.mk 0xFF2B 0xFF4B,
  LowerPair.mk 0xFF2C 0xFF4C, LowerPair.mk 0xFF2D 0xFF4D, LowerPair.mk 0xFF2E 0xFF4E,
  LowerPair.mk 0xFF2F 0xFF4F, LowerPair.mk 0xFF30 0xFF50, LowerPair.mk 0xFF31 0xFF51,
  LowerPair.mk 0xFF32 0xFF52, LowerPair.mk 0xFF33 0xFF53, LowerPair.mk 0xFF34 0xFF54,
  LowerPair.mk 0xFF35 0xFF55, LowerPair.mk 0xFF36 0xFF56, LowerPair.mk 0xFF37 0xFF57,
  LowerPair.mk 0xFF38 0xFF58, LowerPair.mk 0xFF39 0xFF59, LowerPair.mk 0xFF3A 0xFF5A,
  LowerPair.mk 0x10400 0x10428, LowerPair.mk 0x10401 0x10429, LowerPair.mk 0x10402 0x1042A,
  LowerPair.mk 0x10403 0x1042B, LowerPair.mk 0x10404 0x1042C, LowerPair.mk 0x10405 0x1042D,
  LowerPair.mk 0x10406 0x1042E, LowerPair.mk 0x10407 0x1042F, LowerPair.mk 0x10408 0x10430,
  LowerPair.mk 0x10409 0x10431, LowerPair.mk 0x1040A 0x10432, LowerPair.mk 0x1040B 0x10433,
  LowerPair.mk 0x1040C 0x10434, LowerPair.mk 0x1040D 0x10435, LowerPair.mk 0x1040E 0x10436,
  LowerPair.mk 0x1040F 0x10437, LowerPair.mk 0x10410 0x10438, LowerPair.mk 0x10411 0x10439,
  LowerPair.mk 0x10412 0x1043A, LowerPair.mk 0x10413 0x1043B, LowerPair.mk 0x10414 0x1043C,
  LowerPair.mk 0x10415 0x1043D, LowerPair.mk 0x10416 0x1043E, LowerPair.mk 0x10417 0x1043F,
  LowerPair.mk 0x10418 0x10440, LowerPair.mk 0x10419 0x10441, LowerPair.mk 0x1041A 0x10442,
  LowerPair.mk 0x1041B 0x10443, LowerPair.mk 0x1041C 0x10444, LowerPair.mk 0x1041D 0x10445,
  LowerPair.mk 0x1041E 0x10446, LowerPair.mk 0x1041F 0x10447, LowerPair.mk 0x10420 0x10448,
  LowerPair.mk 0x10421 0x10449, LowerPair.mk 0x10422 0x1044A, LowerPair.mk 0x10423 0x1044B,
  LowerPair.mk 0x10424 0x1044C, LowerPair.mk 0x10425 0x1044D, LowerPair.mk 0x10426 0x1044E,
  LowerPair.mk 0x10427 0x1044F, LowerPair.mk 0x104B0 0x104D8, LowerPair.mk 0x104B1 0x104D9,
  LowerPair.mk 0x104B2 0x104DA, LowerPair.mk 0x104B3 0x104DB, LowerPair.mk 0x104B4 0x104DC,
  LowerPair.mk 0x104B5 0x104DD, LowerPair.mk 0x104B6 0x104DE, LowerPair.mk 0x104B7 0x104DF,
  LowerPair.mk 0x104B8 0x104E0, LowerPair.mk 0x104B9 0x104E1, LowerPair.mk 0x104BA 0x104E2,
  LowerPair.mk 0x104BB 0x104E3, LowerPair.mk 0x104BC 0x104E4, LowerPair.mk 0x104BD 0x104E5,
  LowerPair.mk 0x104BE 0x104E6, LowerPair.mk 0x104BF 0x104E7, LowerPair.mk 0x104C0 0x104E8,
  LowerPair.mk 0x104C1 0x104E9, LowerPair.mk 0x104C2 0x104EA, LowerPair.mk 0x104C3 0x104EB,
  LowerPair.mk 0x104C4 0x104EC, LowerPair.mk 0x104C5 0x104ED, LowerPair.mk 0x104C6 0x104EE,
  LowerPair.mk 0x104C7 0x104EF, LowerPair.mk 0x104C8 0x104F0, LowerPair.mk 0x104C9 0x104F1,
  LowerPair.mk 0x104CA 0x104F2, LowerPair.mk 0x104CB 0x104F3, LowerPair.mk 0x104CC 0x104F4,
  LowerPair.mk 0x104CD 0x104F5, LowerPair.mk 0x104CE 0x104F6, LowerPair.mk 0x104CF 0x104F7,
  LowerPair.mk 0x104D0 0x104F8, LowerPair.mk 0x104D1 0x104F9, LowerPair.mk 0x104D2 0x104FA,
  LowerPair.mk 0x104D3 0x104FB, LowerPair.mk 0x10570 0x10597, LowerPair.mk 0x10571 0x10598,
  LowerPair.mk 0x10572 0x10599, LowerPair.mk 0x10573 0x1059A, LowerPair.mk 0x10574 0x1059B,
  LowerPair.mk 0x10575 0x1059C, LowerPair.mk 0x10576 0x1059D, LowerPair.mk 0x10577 0x1059E,
  LowerPair.mk 0x10578 0x1059F, LowerPair.mk 0x10579 0x105A0, LowerPair.mk 0x1057A 0x105A1,
  LowerPair.mk 0x1057C 0x105A3, LowerPair.mk 0x1057D 0x105A4, LowerPair.mk 0x1057E 0x105A5,
  LowerPair.mk 0x1057F 0x105A6, LowerPair.mk 0x10580 0x105A7, LowerPair.mk 0x10581 0x105A8,
  LowerPair.mk 0x10582 0x105A9, LowerPair.mk 0x10583 0x105AA, LowerPair.mk 0x10584 0x105AB,
  LowerPair.mk 0x10585 0x105AC, LowerPair.mk 0x10586 0x105AD, LowerPair.mk 0x10587 0x105AE,
  LowerPair.mk 0x10588 0x105AF, LowerPair.mk 0x10589 0x105B0, LowerPair.mk 0x1058A 0x105B1,
  LowerPair.mk 0x1058C 0x105B3, LowerPair.mk 0x1058D 0x105B4, LowerPair.mk 0x1058E 0x105B5,
  LowerPair.mk 0x1058F 0x105B6, LowerPair.mk 0x10590 0x105B7, LowerPair.mk 0x10591 0x105B8,
  LowerPair.mk 0x10592 0x105B9, LowerPair.mk 0x10594 0x105BB, LowerPair.mk 0x10595 0x105BC,
  LowerPair.mk 0x10C80 0x10CC0, LowerPair.mk 0x10C81 0x10CC1, LowerPair.mk 0x10C82 0x10CC2,
  LowerPair.mk 0x10C83 0x10CC3, LowerPair.mk 0x10C84 0x10CC4, LowerPair.mk 0x10C85 0x10CC5,
  LowerPair.mk 0x10C86 0x10CC6, LowerPair.mk 0x10C87 0x10CC7, LowerPair.mk 0x10C88 0x10CC8,
  LowerPair.mk 0x10C89 0x10CC9, LowerPair.mk 0x10C8A 0x10CCA, LowerPair.mk 0x10C8B 0x10CCB,
  LowerPair.mk 0x10C8C 0x10CCC, LowerPair.mk 0x10C8D 0x10CCD, LowerPair.mk 0x10C8E 0x10CCE,
  LowerPair.mk 0x10C8F 0x10CCF, LowerPair.mk 0x10C90 0x10CD0, LowerPair.mk 0x10C91 0x10CD1,
  LowerPair.mk 0x10C92 0x10CD2, LowerPair.mk 0x10C93 0x10CD3, LowerPair.mk 0x10C94 0x10CD4,
  LowerPair.mk 0x10C95 0x10CD5, LowerPair.mk 0x10C96 0x10CD6, LowerPair.mk 0x10C97 0x10CD7,
  LowerPair.mk 0x10C98 0x10CD8, LowerPair.mk 0x10C99 0x10CD9, LowerPair.mk 0x10C9A 0x10CDA,
  LowerPair.mk 0x10C9B 0x10CDB, LowerPair.mk 0x10C9C 0x10CDC, LowerPair.mk 0x10C9D 0x10CDD,
  LowerPair.mk 0x10C9E 0x10CDE, LowerPair.mk 0x10C9F 0x10CDF, LowerPair.mk 0x10CA0 0x10CE0,
  LowerPair.mk 0x10CA1 0x10CE1, LowerPair.mk 0x10CA2 0x10CE2, LowerPair.mk 0x10CA3 0x10CE3,
  LowerPair.mk 0x10CA4 0x10CE4, LowerPair.mk 0x10CA5 0x10CE5, LowerPair.mk 0x10CA6 0x10CE6,
  LowerPair.mk 0x10CA7 0x10CE7, LowerPair.mk 0x10CA8 0x10CE8, LowerPair.mk 0x10CA9 0x10CE9,
  LowerPair.mk 0x10CAA 0x10CEA, LowerPair.mk 0x10CAB 0x10CEB, LowerPair.mk 0x10CAC 0x10CEC,
  LowerPair.mk 0x10CAD 0x10CED, LowerPair.mk 0x10CAE 0x10CEE, LowerPair.mk 0x10CAF 0x10CEF,
  LowerPair.mk 0x10CB0 0x10CF0, LowerPair.mk 0x10CB1 0x10CF1, LowerPair.mk 0x10CB2 0x10CF2,
  LowerPair.mk 0x118A0 0x118C0, LowerPair.mk 0x118A1 0x118C1, LowerPair.mk 0x118A2 0x118C2,
  LowerPair.mk 0x118A3 0x118C3, LowerPair.mk 0x118A4 0x118C4, LowerPair.mk 0x118A5 0x118C5,
  LowerPair.mk 0x118A6 0x118C6, LowerPair.mk 0x118A7 0x118C7, LowerPair.mk 0x118A8 0x118C8,
  LowerPair.mk 0x118A9 0x118C9, LowerPair.mk 0x118AA 0x118CA, LowerPair.mk 0x118AB 0x118CB,
  LowerPair.mk 0x118AC 0x118CC, LowerPair.mk 0x118AD 0x118CD, LowerPair.mk 0x118AE 0x118CE,
  LowerPair.mk 0x118AF 0x118CF, LowerPair.mk 0x118B0 0x118D0, LowerPair.mk 0x118B1 0x118D1,
  LowerPair.mk 0x118B2 0x118D2, LowerPair.mk 0x118B3 0x118D3, LowerPair.mk 0x118B4 0x118D4,
  LowerPair.mk 0x118B5 0x118D5, LowerPair.mk 0x118B6 0x118D6, LowerPair.mk 0x118B7 0x118D7,
  LowerPair.mk 0x118B8 0x118D8, LowerPair.mk 0x118B9 0x118D9, LowerPair.mk 0x118BA 0x118DA,
  LowerPair.mk 0x118BB 0x118DB, LowerPair.mk 0x118BC 0x118DC, LowerPair.mk 0x118BD 0x118DD,
  LowerPair.mk 0x118BE 0x118DE, LowerPair.mk 0x118BF 0x118DF, LowerPair.mk 0x16E40 0x16E60,
  LowerPair.mk 0x16E41 0x16E61, LowerPair.mk 0x16E42 0x16E62, LowerPair.mk 0x16E43 0x16E63,
  LowerPair.mk 0x16E44 0x16E64, LowerPair.mk 0x16E45 0x16E65, LowerPair.mk 0x16E46 0x16E66,
  LowerPair.mk 0x16E47 0x16E67, LowerPair.mk 0x16E48 0x16E68, LowerPair.mk 0x16E49 0x16E69,
  LowerPair.mk 0x16E4A 0x16E6A, LowerPair.mk 0x16E4B 0x16E6B, LowerPair.mk 0x16E4C 0x16E6C,
  LowerPair.mk 0x16E4D 0x16E6D, LowerPair.mk 0x16E4E 0x16E6E, LowerPair.mk 0x16E4F 0x16E6F,
  LowerPair.mk 0x16E50 0x16E70, LowerPair.mk 0x16E51 0x16E71, LowerPair.mk 0x16E52 0x16E72,
  LowerPair.mk 0x16E53 0x16E73, LowerPair.mk 0x16E54 0x16E74, LowerPair.mk 0x16E55 0x16E75,
  LowerPair.mk 0x16E56 0x16E76, LowerPair.mk 0x16E57 0x16E77, LowerPair.mk 0x16E58 0x16E78,
  LowerPair.mk 0x16E59 0x16E79, LowerPair.mk 0x16E5A 0x16E7A, LowerPair.mk 0x16E5B 0x16E7B,
  LowerPair.mk 0x16E5C 0x16E7C, LowerPair.mk 0x16E5D 0x16E7D, LowerPair.mk 0x16E5E 0x16E7E,
  LowerPair.mk 0x16E5F 0x16E7F, LowerPair.mk 0x1E900 0x1E922, LowerPair.mk 0x1E901 0x1E923,
  LowerPair.mk 0x1E902 0x1E924, LowerPair.mk 0x1E903 0x1E925, LowerPair.mk 0x1E904 0x1E926,
  LowerPair.mk 0x1E905 0x1E927, LowerPair.mk 0x1E906 0x1E928, LowerPair.mk 0x1E907 0x1E929,
  LowerPair.mk 0x1E908 0x1E92A, LowerPair.mk 0x1E909 0x1E92B, LowerPair.mk 0x1E90A 0x1E92C,
  LowerPair.mk 0x1E90B 0x1E92D, LowerPair.mk 0x1E90C 0x1E92E, LowerPair.mk 0x1E90D 0x1E92F,
  LowerPair.mk 0x1E90E 0x1E930, LowerPair.mk 0x1E90F 0x1E931, LowerPair.mk 0x1E910 0x1E932,
  LowerPair.mk 0x1E911 0x1E933, LowerPair.mk 0x1E912 0x1E934, LowerPair.mk 0x1E913 0x1E935,
  LowerPair.mk 0x1E914 0x1E936, LowerPair.mk 0x1E915 0x1E937, LowerPair.mk 0x1E916 0x1E938,
  LowerPair.mk 0x1E917 0x1E939, LowerPair.mk 0x1E918 0x1E93A, LowerPair.mk 0x1E919 0x1E93B,
  LowerPair.mk 0x1E91A 0x1E93C, LowerPair.mk 0x1E91B 0x1E93D, LowerPair.mk 0x1E91C 0x1E93E,
  LowerPair.mk 0x1E91D 0x1E93F, LowerPair.mk 0x1E91E 0x1E940, LowerPair.mk 0x1E91F 0x1E941,
  LowerPair.mk 0x1E920 0x1E942, LowerPair.mk 0x1E921 0x1E943
  ]

/-- The lower-case form of a character as the specification words it: the form listed in
`lowerPairs`, and the character itself when it has no entry. -/
def specLower (c : Char) : Char :=
  match lowerPairs.find? (fun p => p.upper == c.toNat) with
  | some p => Char.ofNat p.lower
  | none => c

/-- The entries of the lower-case mapping that a row of the case table stands for: in an
`UpperLower` row every code point at an even offset, with its successor; in any other row
every code point, with the code point `Delta` further. -/
def rowEntries (cr : unicode.CaseRange) : List LowerPair :=
  if cr.Delta > unicode.MaxRune then
    (List.range ((cr.Hi + 1 - cr.Lo) / 2)).map
      (fun k => LowerPair.mk (cr.Lo + 2 * k) (cr.Lo + 2 * k + 1))
  else
    (List.range (cr.Hi + 1 - cr.Lo)).map
      (fun k => LowerPair.mk (cr.Lo + k) (((cr.Lo + k : Nat) : Int) + cr.Delta).toNat)

/-- The text in lower case, character by character. -/
def specLowerText (s : String) : String :=
  ⟨s.data.map specLower⟩

/-- The normalized text as the specification words it, for a notion `ws` of whitespace:
the text in lower case without the characters that are neither a word character nor
whitespace. -/
def normalizedText (ws : Char → Bool) (s : String) : List Char :=
  (specLowerText s).data.filter (fun c => isWordChar c || ws c)

/-- The words of a text as the specification words them: the maximal runs of word
characters in the normalized text. -/
def wordsOf (ws : Char → Bool) (s : String) : List String :=
  (maximalRuns isWordChar (normalizedText ws s)).map String.mk

/-- The token sequence of a text as the specification words it: the normalized text split
on whitespace, without empty tokens. -/
def tokensOf (ws : Char → Bool) (s : String) : List String :=
  (((normalizedText ws s).splitOnP ws).filter (fun run => !run.isEmpty)).map String.mk

/-- A text made of word characters only (it may be empty). -/
def allWordChars (u : String) : Bool :=
  u.data.all isWordChar

/-- A word: a non-empty text of word characters. -/
def isWord (u : String) : Bool :=
  !u.data.isEmpty && allWordChars u

/-- The words joined by single spaces. -/
def joinWords : List String → String
  | [] => ""
  | [w] => w
  | w :: ws => w ++ " " ++ joinWords ws

/-- Two tables that are the same mapping: the same keys, with the same value at every key.
This is equality of Go maps; the order of the entries in the model plays no part. -/
def sameMap (m m' : GoMap) : Prop :=
  ∀ k, (k ∈ m.keys ↔ k ∈ m'.keys) ∧ m.index k = m'.index k

end golang

/-! ## The library models -/

open golang

theorem Char.toNat_ofNat_or (n : Nat) : (Char.ofNat n).toNat = n ∨ (Char.ofNat n).toNat = 0 := by
  unfold Char.ofNat
  split
  · left; rfl
  · right; rfl

theorem Char.toNat_ofNat_small (n : Nat) (h : n < 0xD800) : (Char.ofNat n).toNat = n := by
  unfold Char.ofNat
  split
  · rfl
  · rename_i hv
    exact absurd (Or.inl h) hv

theorem Char.eq_of_toNat_eq {a b : Char} (h : a.toNat = b.toNat) : a = b := by
  apply Char.ext
  apply UInt32.ext
  exact h

namespace unicode

theorem caseRanges_lower_target :
    ∀ cr ∈ CaseRanges, cr.Delta > MaxRune ∨ (90 : Int) < (cr.Lo : Int) + cr.Delta := by
  decide

/-- The result of `to_LowerCase` on a rune above ASCII is never an ASCII capital. -/
theorem to_LowerCase_not_upper (r : Char) (hr : 0x7F < r.toNat) :
    ¬ (0x41 ≤ (to_LowerCase r CaseRanges).toNat ∧ (to_LowerCase r CaseRanges).toNat ≤ 0x5A) := by
  unfold to_LowerCase
  split
  · rename_i cr hfind
    have hmem := List.mem_of_find?_eq_some hfind
    have hin := List.find?_some hfind
    simp only [Bool.and_eq_true, decide_eq_true_eq] at hin
    rcases caseRanges_lower_target cr hmem with h | h
    · rw [if_pos h]
      rcases Char.toNat_ofNat_or (cr.Lo + (r.toNat - cr.Lo - (r.toNat - cr.Lo) % 2 + 1)) with e | e
      · rw [e]; omega
      · rw [e]; omega
    · split
      · rcases Char.toNat_ofNat_or (cr.Lo + (r.toNat - cr.Lo - (r.toNat - cr.Lo) % 2 + 1)) with e | e
        · rw [e]; omega
        · rw [e]; omega
      · rcases Char.toNat_ofNat_or ((r.toNat : Int) + cr.Delta).toNat with e | e
        · rw [e]; omega
        · rw [e]; omega
  · omega

theorem ToLower_not_upper (r : Char) :
    ¬ (0x41 ≤ (ToLower r).toNat ∧ (ToLower r).toNat ≤ 0x5A) := by
  unfold ToLower
  split
  · rename_i h
    split
    · rename_i h2
      have h3 : 'A'.toNat = 65 := rfl
      have h4 : 'Z'.toNat = 90 := rfl
      have h5 : 'a'.toNat = 97 := rfl
      rw [Char.toNat_ofNat_small _ (by omega)]
      omega
    · rename_i h2
      have h3 : 'A'.toNat = 65 := rfl
      have h4 : 'Z'.toNat = 90 := rfl
      omega
  · rename_i h
    have : MaxASCII = 0x7F := rfl
    exact to_LowerCase_not_upper r (by omega)

end unicode

theorem unicode.ToLower_ascii_fixed (c : Char) (h : c.toNat ≤ 0x7F)
    (hu : ¬ (0x41 ≤ c.toNat ∧ c.toNat ≤ 0x5A)) : unicode.ToLower c = c := by
  unfold unicode.ToLower
  have h3 : 'A'.toNat = 65 := rfl
  have h4 : 'Z'.toNat = 90 := rfl
  have h5 : unicode.MaxASCII = 0x7F := rfl
  rw [if_pos (by omega), if_neg (by omega)]

theorem unicode.ToLower_upper (c : Char) (hu : 0x41 ≤ c.toNat ∧ c.toNat ≤ 0x5A) :
    unicode.ToLower c = Char.ofNat (c.toNat + 32) := by
  unfold unicode.ToLower
  have h3 : 'A'.toNat = 65 := rfl
  have h4 : 'Z'.toNat = 90 := rfl
  have h5 : unicode.MaxASCII = 0x7F := rfl
  have h6 : 'a'.toNat = 97 := rfl
  rw [if_pos (by omega), if_pos (by omega), h6, h3]

theorem unicode.ToLower_otherCase (c : Char) :
    unicode.ToLower (golang.otherCase c) = unicode.ToLower c := by
  have h3 : 'A'.toNat = 65 := rfl
  have h4 : 'Z'.toNat = 90 := rfl
  have h6 : 'a'.toNat = 97 := rfl
  have h7 : 'z'.toNat = 122 := rfl
  unfold golang.otherCase
  split
  · rename_i h
    rw [unicode.ToLower_upper c (by omega)]
    apply unicode.ToLower_ascii_fixed
    · rw [Char.toNat_ofNat_small _ (by omega)]; omega
    · rw [Char.toNat_ofNat_small _ (by omega)]; omega
  · split
    · rename_i h1 h2
      have e : (Char.ofNat (c.toNat - 32)).toNat = c.toNat - 32 :=
        Char.toNat_ofNat_small _ (by omega)
      rw [unicode.ToLower_upper _ (by omega), e,
        unicode.ToLower_ascii_fixed c (by omega) (by omega)]
      apply Char.eq_of_toNat_eq
      rw [Char.toNat_ofNat_small _ (by omega)]
      omega
    · rfl

namespace regexp

theorem mustCompile_pattern :
    MustCompile "[^\\w\\s]" = .ok ⟨true, [(0x30, 0x39), (0x41, 0x5A), (0x5F, 0x5F),
      (0x61, 0x7A), (0x09, 0x0A), (0x0C, 0x0D), (0x20, 0x20)]⟩ := by
  decide

theorem matchRune_pattern (c : Char) :
    Regexp.MatchRune ⟨true, [(0x30, 0x39), (0x41, 0x5A), (0x5F, 0x5F),
      (0x61, 0x7A), (0x09, 0x0A), (0x0C, 0x0D), (0x20, 0x20)]⟩ c
      = !(golang.isWordChar c || golang.isStripSpace c) := by
  have h1 : '0'.toNat = 48 := rfl
  have h2 : '9'.toNat = 57 := rfl
  have h3 : 'A'.toNat = 65 := rfl
  have h4 : 'Z'.toNat = 90 := rfl
  have h6 : 'a'.toNat = 97 := rfl
  have h7 : 'z'.toNat = 122 := rfl
  simp only [Regexp.MatchRune, golang.isWordChar, golang.isStripSpace, isalnum, List.any_cons,
    List.any_nil, Bool.or_false, Bool.true_xor, h1, h2, h3, h4, h6, h7]
  congr 1
  rw [Bool.eq_iff_iff]
  simp only [Bool.or_eq_true, Bool.and_eq_true, decide_eq_true_eq]
  omega

theorem replaceAll_empty (re : Regexp) (src : String) :
    re.ReplaceAllString src "" = ⟨src.data.filter (fun r => !re.MatchRune r)⟩ := by
  unfold Regexp.ReplaceAllString
  congr 1
  induction src.data with
  | nil => rfl
  | cons r l ih =>
    rw [List.flatMap_cons, ih]
    cases h : re.MatchRune r <;> simp [List.filter_cons, h]

end regexp

namespace golang

theorem normalize_eq (s : String) : normalize s = .ok ⟨codeNormalized s⟩ := by
  unfold normalize codeNormalized
  rw [regexp.mustCompile_pattern]
  show Except.ok _ = Except.ok _
  rw [regexp.replaceAll_empty]
  congr 2
  apply List.filter_congr
  intro c _
  rw [regexp.matchRune_pattern, Bool.not_not]

theorem tokens_eq (s : String) : tokens s = .ok (strings.Fields ⟨codeNormalized s⟩) := by
  unfold tokens
  rw [normalize_eq]
  rfl

theorem wordFrequency_eq (s : String) :
    wordFrequency s = .ok (countWords (strings.Fields ⟨codeNormalized s⟩)) := by
  unfold wordFrequency
  rw [regexp.mustCompile_pattern]
  show Except.ok _ = Except.ok _
  rw [regexp.replaceAll_empty]
  unfold countWords codeNormalized
  congr 4
  apply List.filter_congr
  intro c _
  rw [regexp.matchRune_pattern, Bool.not_not]

end golang

namespace strings

theorem fieldsLoop_eq_go (l field : List Char) :
    fieldsLoop l field
      = ((List.splitOnP.go unicode.IsSpace l field).filter (fun run => !run.isEmpty)).map
          String.mk := by
  induction l generalizing field with
  | nil =>
    cases field <;> simp [fieldsLoop, List.splitOnP.go, List.filter_cons]
  | cons r rest ih =>
    unfold fieldsLoop List.splitOnP.go
    cases hr : unicode.IsSpace r
    · simp only [Bool.false_eq_true, if_false]
      exact ih (r :: field)
    · simp only [if_true]
      cases field with
      | nil => simp [List.filter_cons, ih]
      | cons c field => simp [List.filter_cons, ih]

theorem Fields_eq_splitOnP (l : List Char) :
    Fields ⟨l⟩
      = ((l.splitOnP unicode.IsSpace).filter (fun run => !run.isEmpty)).map String.mk :=
  fieldsLoop_eq_go l []

/-- What `fieldsLoop` does at a space. -/
theorem fieldsLoop_space (r : Char) (rest field : List Char) (h : unicode.IsSpace r = true) :
    fieldsLoop (r :: rest) field = fieldsLoop [] field ++ fieldsLoop rest [] := by
  cases field <;> simp [fieldsLoop, h]

theorem fieldsLoop_nonspace (r : Char) (rest field : List Char)
    (h : unicode.IsSpace r = false) :
    fieldsLoop (r :: rest) field = fieldsLoop rest (r :: field) := by
  simp [fieldsLoop, h]

/-- A space inside the text ends the field in progress and starts afresh. -/
theorem fieldsLoop_append_space (a : List Char) (r : Char) (b field : List Char)
    (h : unicode.IsSpace r = true) :
    fieldsLoop (a ++ r :: b) field = fieldsLoop a field ++ fieldsLoop b [] := by
  induction a generalizing field with
  | nil => exact fieldsLoop_space r b field h
  | cons c a ih =>
    cases hc : unicode.IsSpace c
    · rw [List.cons_append, fieldsLoop_nonspace c _ field hc, fieldsLoop_nonspace c a field hc]
      exact ih (c :: field)
    · rw [List.cons_append, fieldsLoop_space c _ field hc, fieldsLoop_space c a field hc, ih [],
        List.append_assoc]

/-- Two continuations that the loop cannot tell apart stay so behind a common beginning. -/
theorem fieldsLoop_append_congr (a l₁ l₂ : List Char)
    (h : ∀ field, fieldsLoop l₁ field = fieldsLoop l₂ field) (field : List Char) :
    fieldsLoop (a ++ l₁) field = fieldsLoop (a ++ l₂) field := by
  induction a generalizing field with
  | nil => exact h field
  | cons c a ih =>
    cases hc : unicode.IsSpace c
    · rw [List.cons_append, List.cons_append, fieldsLoop_nonspace c _ field hc,
        fieldsLoop_nonspace c _ field hc]
      exact ih (c :: field)
    · rw [List.cons_append, List.cons_append, fieldsLoop_space c _ field hc,
        fieldsLoop_space c _ field hc, ih []]

theorem isSpace_space : unicode.IsSpace ' ' = true := by decide

/-- A non-empty run of spaces ends the field in progress and is skipped. -/
theorem fieldsLoop_spaces (n : Nat) (b field : List Char) (hn : 0 < n) :
    fieldsLoop (List.replicate n ' ' ++ b) field = fieldsLoop [] field ++ fieldsLoop b [] := by
  induction n generalizing field with
  | zero => omega
  | succ k ih =>
    rw [List.replicate_succ, List.cons_append, fieldsLoop_space _ _ field isSpace_space]
    cases k with
    | zero => rfl
    | succ j =>
      rw [ih [] (by omega)]
      rfl

/-- Every field is non-empty and made of runes of the text that are not spaces. -/
theorem fieldsLoop_mem (l field : List Char) (t : String) (ht : t ∈ fieldsLoop l field) :
    t.data ≠ [] ∧ ∀ c ∈ t.data, c ∈ field ∨ (c ∈ l ∧ unicode.IsSpace c = false) := by
  induction l generalizing field with
  | nil =>
    cases field with
    | nil => simp [fieldsLoop] at ht
    | cons x field =>
      simp only [fieldsLoop, if_neg (List.cons_ne_nil x field), List.mem_singleton] at ht
      subst ht
      refine ⟨by simp, fun c hc => Or.inl ?_⟩
      exact List.mem_reverse.mp hc
  | cons r rest ih =>
    cases hr : unicode.IsSpace r
    · rw [fieldsLoop_nonspace r rest field hr] at ht
      obtain ⟨h1, h2⟩ := ih (r :: field) ht
      refine ⟨h1, fun c hc => ?_⟩
      rcases h2 c hc with h | h
      · rcases List.mem_cons.mp h with e | e
        · right; subst e; exact ⟨List.mem_cons_self _ _, hr⟩
        · left; exact e
      · right; exact ⟨List.mem_cons_of_mem _ h.1, h.2⟩
    · rw [fieldsLoop_space r rest field hr] at ht
      rcases List.mem_append.mp ht with h | h
      · cases field with
        | nil => simp [fieldsLoop] at h
        | cons x field =>
          simp only [fieldsLoop, if_neg (List.cons_ne_nil x field), List.mem_singleton] at h
          subst h
          refine ⟨by simp, fun c hc => Or.inl ?_⟩
          exact List.mem_reverse.mp hc
      · obtain ⟨h1, h2⟩ := ih [] h
        refine ⟨h1, fun c hc => ?_⟩
        rcases h2 c hc with h' | h'
        · simp at h'
        · right; exact ⟨List.mem_cons_of_mem _ h'.1, h'.2⟩

end strings

theorem List.splitOnP_congr {α : Type} (p q : α → Bool) (l : List α)
    (h : ∀ x ∈ l, p x = q x) : l.splitOnP p = l.splitOnP q := by
  induction l with
  | nil => rfl
  | cons x xs ih =>
    rw [List.splitOnP_cons, List.splitOnP_cons, h x (List.mem_cons_self x xs),
      ih (fun y hy => h y (List.mem_cons_of_mem x hy))]

namespace GoMap

theorem index_assign (m : GoMap) (k k' : String) (v : Int) :
    (m.assign k v).index k' = if k = k' then v else m.index k' := by
  induction m with
  | nil => simp [assign, index]
  | cons e m ih =>
    obtain ⟨a, b⟩ := e
    by_cases h : a = k
    · subst h
      by_cases h' : a = k' <;> simp [assign, index, h']
    · by_cases h' : a = k'
      · subst h'
        have : ¬ k = a := fun e => h e.symm
        simp [assign, index, h, this]
      · simp [assign, index, h, h', ih]

theorem mem_keys_assign (m : GoMap) (k k' : String) (v : Int) :
    k' ∈ (m.assign k v).keys ↔ k' = k ∨ k' ∈ m.keys := by
  induction m with
  | nil => simp [assign, keys]
  | cons e m ih =>
    obtain ⟨a, b⟩ := e
    by_cases h : a = k
    · subst h
      simp [assign, keys]
    · simp only [assign, if_neg h, keys, List.map_cons, List.mem_cons] at ih ⊢
      rw [ih]
      tauto

theorem sum_values_incr (m : GoMap) (k : String) :
    (m.assign k (m.index k + 1)).values.sum = m.values.sum + 1 := by
  induction m with
  | nil => simp [assign, index, values]
  | cons e m ih =>
    obtain ⟨a, b⟩ := e
    by_cases h : a = k
    · simp only [assign, index, if_pos h, values, List.map_cons, List.sum_cons]
      omega
    · simp only [assign, index, if_neg h, values, List.map_cons, List.sum_cons] at ih ⊢
      rw [ih]
      omega

end GoMap

namespace golang

/-- The counting loop started from any table adds, for each word, its number of
occurrences. -/
theorem countLoop_index (ws : List String) (m : GoMap) (w : String) :
    (ws.foldl (fun frequency word => frequency.assign word (frequency.index word + 1)) m).index w
      = m.index w + (ws.count w : Int) := by
  induction ws generalizing m with
  | nil => simp
  | cons x ws ih =>
    rw [List.foldl_cons, ih, GoMap.index_assign, List.count_cons]
    by_cases h : x = w
    · subst h
      simp only [if_true, beq_self_eq_true]
      push_cast
      omega
    · have hb : (x == w) = false := by simpa using h
      simp only [if_neg h, hb, Bool.false_eq_true, if_false]
      push_cast
      omega

theorem countLoop_keys (ws : List String) (m : GoMap) (w : String) :
    w ∈ GoMap.keys
        (ws.foldl (fun frequency word => frequency.assign word (frequency.index word + 1)) m)
      ↔ w ∈ m.keys ∨ w ∈ ws := by
  induction ws generalizing m with
  | nil => simp
  | cons x ws ih =>
    rw [List.foldl_cons, ih, GoMap.mem_keys_assign, List.mem_cons]
    tauto

theorem countLoop_sum (ws : List String) (m : GoMap) :
    (GoMap.values
        (ws.foldl (fun frequency word => frequency.assign word (frequency.index word + 1)) m)).sum
      = m.values.sum + (ws.length : Int) := by
  induction ws generalizing m with
  | nil => simp
  | cons x ws ih =>
    rw [List.foldl_cons, ih, GoMap.sum_values_incr, List.length_cons]
    push_cast
    omega

end golang

namespace golang

theorem codeNormalized_append (a b : String) :
    codeNormalized (a ++ b) = codeNormalized a ++ codeNormalized b := by
  simp [codeNormalized, strings.ToLower, List.map_append, List.filter_append]

/-- A character of the normalized text is a lower-case letter, a digit, the underscore or
one of the five spaces of the stripping step. -/
theorem codeNormalized_mem (s : String) (c : Char) (hc : c ∈ codeNormalized s) :
    ((0x61 ≤ c.toNat ∧ c.toNat ≤ 0x7A) ∨ (0x30 ≤ c.toNat ∧ c.toNat ≤ 0x39) ∨ c.toNat = 0x5F)
      ∨ isStripSpace c = true := by
  unfold codeNormalized strings.ToLower at hc
  rw [List.mem_filter, List.mem_map] at hc
  obtain ⟨⟨r, _, hr⟩, hkeep⟩ := hc
  have hup := unicode.ToLower_not_upper r
  rw [hr] at hup
  have h1 : '0'.toNat = 48 := rfl
  have h2 : '9'.toNat = 57 := rfl
  have h3 : 'A'.toNat = 65 := rfl
  have h4 : 'Z'.toNat = 90 := rfl
  have h6 : 'a'.toNat = 97 := rfl
  have h7 : 'z'.toNat = 122 := rfl
  simp only [isWordChar, regexp.isalnum, isStripSpace, Bool.or_eq_true, Bool.and_eq_true,
    decide_eq_true_eq, h1, h2, h3, h4, h6, h7] at hkeep ⊢
  omega

/-- On the characters that the stripping step keeps, the spaces of `strings.Fields` are the
characters that are not word characters. -/
theorem isSpace_of_kept (c : Char) (h : (isWordChar c || isStripSpace c) = true) :
    unicode.IsSpace c = !isWordChar c := by
  have h1 : '0'.toNat = 48 := rfl
  have h2 : '9'.toNat = 57 := rfl
  have h3 : 'A'.toNat = 65 := rfl
  have h4 : 'Z'.toNat = 90 := rfl
  have h6 : 'a'.toNat = 97 := rfl
  have h7 : 'z'.toNat = 122 := rfl
  have h8 : unicode.MaxLatin1 = 255 := rfl
  rw [Bool.eq_iff_iff]
  simp only [isWordChar, regexp.isalnum, isStripSpace, unicode.IsSpace, Bool.or_eq_true,
    Bool.and_eq_true, decide_eq_true_eq, Bool.not_eq_true', Bool.or_eq_false_iff,
    Bool.and_eq_false_iff, decide_eq_false_iff_not, h1, h2, h3, h4, h6, h7, h8] at h ⊢
  rw [if_pos (by omega)]
  simp only [Bool.or_eq_true, decide_eq_true_eq]
  omega

theorem codeNormalized_kept (s : String) (c : Char) (hc : c ∈ codeNormalized s) :
    (isWordChar c || isStripSpace c) = true := by
  unfold codeNormalized at hc
  exact (List.mem_filter.mp hc).2

/-- The token sequence of the code is the word sequence of the specification. -/
theorem fields_codeNormalized (s : String) :
    strings.Fields ⟨codeNormalized s⟩ = codeWords s := by
  rw [strings.Fields_eq_splitOnP]
  unfold codeWords maximalRuns
  rw [List.splitOnP_congr unicode.IsSpace (fun c => !isWordChar c) (codeNormalized s)
    (fun c hc => isSpace_of_kept c (codeNormalized_kept s c hc))]

/-- C3. `wordFrequency ""` returns the empty table, which has no key. -/
theorem wordFrequency_empty :
    wordFrequency "" = .ok GoMap.make ∧ GoMap.keys GoMap.make = [] := by
  decide

end golang

namespace golang

/-- The normalized text depends on the text only through its lower-cased runes. -/
theorem codeNormalized_congr (s t : String)
    (h : s.data.map unicode.ToLower = t.data.map unicode.ToLower) :
    codeNormalized s = codeNormalized t := by
  unfold codeNormalized strings.ToLower
  rw [h]

theorem wordFrequency_congr (s t : String) (h : codeNormalized s = codeNormalized t) :
    wordFrequency s = wordFrequency t := by
  rw [wordFrequency_eq, wordFrequency_eq, h]

theorem ToLower_idem_ascii (c : Char) (h : c.toNat < 0x80) :
    unicode.ToLower (unicode.ToLower c) = unicode.ToLower c := by
  by_cases hu : 0x41 ≤ c.toNat ∧ c.toNat ≤ 0x5A
  · rw [unicode.ToLower_upper c hu]
    apply unicode.ToLower_ascii_fixed
    · rw [Char.toNat_ofNat_small _ (by omega)]; omega
    · rw [Char.toNat_ofNat_small _ (by omega)]; omega
  · rw [unicode.ToLower_ascii_fixed c (by omega) hu, unicode.ToLower_ascii_fixed c (by omega) hu]

/-- C4. Words that differ only in case are merged. Replacing an ASCII letter anywhere in a
text by the same letter in the other case leaves the result of `wordFrequency` unchanged;
for an ASCII text `s`, the upper-cased and the lower-cased `s` give the same result as `s`;
and `"Hello!!! hello?"` gives hello:2. -/
theorem wordFrequency_case_insensitive (a b : String) (c : Char)
    (hc : isASCIILetter c = true) (s : String) (hs : isASCII s = true) :
    wordFrequency (a ++ String.singleton c ++ b)
        = wordFrequency (a ++ String.singleton (otherCase c) ++ b)
      ∧ otherCase c ≠ c
      ∧ wordFrequency (upperASCII s) = wordFrequency s
      ∧ wordFrequency (strings.ToLower s) = wordFrequency s
      ∧ wordFrequency "Hello!!! hello?" = .ok [("hello", 2)] := by
  refine ⟨?_, ?_, ?_, ?_, by decide⟩
  · apply wordFrequency_congr
    apply codeNormalized_congr
    simp [String.data_append, unicode.ToLower_otherCase]
  · have h3 : 'A'.toNat = 65 := rfl
    have h4 : 'Z'.toNat = 90 := rfl
    have h6 : 'a'.toNat = 97 := rfl
    have h7 : 'z'.toNat = 122 := rfl
    simp only [isASCIILetter, Bool.or_eq_true, Bool.and_eq_true, decide_eq_true_eq, h3, h4, h6,
      h7] at hc
    intro e
    have e' := congrArg Char.toNat e
    unfold otherCase at e'
    rw [h3, h4, h6, h7] at e'
    split at e'
    · rw [Char.toNat_ofNat_small _ (by omega)] at e'; omega
    · split at e'
      · rw [Char.toNat_ofNat_small _ (by omega)] at e'; omega
      · omega
  · apply wordFrequency_congr
    apply codeNormalized_congr
    unfold upperASCII
    rw [List.map_map]
    apply List.map_congr_left
    intro r _
    simp only [Function.comp]
    split
    · exact unicode.ToLower_otherCase r
    · rfl
  · apply wordFrequency_congr
    apply codeNormalized_congr
    unfold strings.ToLower
    rw [List.map_map]
    apply List.map_congr_left
    intro r hr
    unfold isASCII at hs
    rw [List.all_eq_true] at hs
    simp only [Function.comp]
    exact ToLower_idem_ascii r (by simpa using hs r hr)

theorem wordFrequency_case_insensitive_witness :
    isASCIILetter 'O' = true ∧ isASCII "One two" = true
      ∧ wordFrequency ("two " ++ String.singleton 'O' ++ "ne")
          = wordFrequency ("two " ++ String.singleton (otherCase 'O') ++ "ne")
      ∧ otherCase 'O' ≠ 'O'
      ∧ wordFrequency (upperASCII "One two") = wordFrequency "One two"
      ∧ wordFrequency (strings.ToLower "One two") = wordFrequency "One two"
      ∧ wordFrequency "Hello!!! hello?" = .ok [("hello", 2)] :=
  ⟨by decide, by decide,
    wordFrequency_case_insensitive "two " "ne" 'O' (by decide) "One two" (by decide)⟩

end golang

namespace golang

theorem codeNormalized_punct (p : String) (hp : p.data.all isASCIIPunct = true) :
    codeNormalized p = [] := by
  unfold codeNormalized strings.ToLower
  rw [List.filter_eq_nil_iff]
  intro c hc
  obtain ⟨r, hr, rfl⟩ := List.mem_map.mp hc
  rw [List.all_eq_true] at hp
  have hpr := hp r hr
  have h1 : '0'.toNat = 48 := rfl
  have h2 : '9'.toNat = 57 := rfl
  have h3 : 'A'.toNat = 65 := rfl
  have h4 : 'Z'.toNat = 90 := rfl
  have h6 : 'a'.toNat = 97 := rfl
  have h7 : 'z'.toNat = 122 := rfl
  have hfix : unicode.ToLower r = r := by
    apply unicode.ToLower_ascii_fixed
    · simp only [isASCIIPunct, Bool.and_eq_true, decide_eq_true_eq] at hpr
      omega
    · simp only [isASCIIPunct, isWordChar, regexp.isalnum, Bool.and_eq_true, decide_eq_true_eq,
        Bool.not_eq_true', Bool.or_eq_false_iff, Bool.and_eq_false_iff, decide_eq_false_iff_not,
        h1, h2, h3, h4, h6, h7] at hpr
      omega
  rw [hfix]
  simp only [isASCIIPunct, Bool.and_eq_true, Bool.not_eq_true'] at hpr
  simp [hpr.1.2, hpr.2]

/-- C5. Punctuation next to a word is removed before splitting. For every text `w` (a word
in particular) and every text `p` of ASCII punctuation characters, `p ++ w ++ p` gives the
same result as `w`; inserting an ASCII punctuation character anywhere in a text (at the
start or the end of a token in particular) leaves the result unchanged; and `"Four,"` and
`"four"` both give four:1. -/
theorem wordFrequency_punctuation (w p : String) (hp : p.data.all isASCIIPunct = true)
    (a b : String) (c : Char) (hc : isASCIIPunct c = true) :
    wordFrequency (p ++ w ++ p) = wordFrequency w
      ∧ wordFrequency (a ++ String.singleton c ++ b) = wordFrequency (a ++ b)
      ∧ wordFrequency "Four," = .ok [("four", 1)]
      ∧ wordFrequency "four" = .ok [("four", 1)] := by
  refine ⟨?_, ?_, by decide, by decide⟩
  · apply wordFrequency_congr
    rw [codeNormalized_append, codeNormalized_append, codeNormalized_punct p hp]
    simp
  · apply wordFrequency_congr
    rw [codeNormalized_append, codeNormalized_append, codeNormalized_append,
      codeNormalized_punct (String.singleton c) (by simpa [String.singleton] using hc)]
    simp

theorem wordFrequency_punctuation_witness :
    ("!?".data.all isASCIIPunct = true ∧ isASCIIPunct ',' = true)
      ∧ wordFrequency ("!?" ++ "four" ++ "!?") = wordFrequency "four"
      ∧ wordFrequency ("One two" ++ String.singleton ',' ++ " three")
          = wordFrequency ("One two" ++ " three")
      ∧ wordFrequency "Four," = .ok [("four", 1)]
      ∧ wordFrequency "four" = .ok [("four", 1)] :=
  ⟨⟨by decide, by decide⟩,
    wordFrequency_punctuation "four" "!?" (by decide) "One two" " three" ',' (by decide)⟩

theorem codeNormalized_spaces (n : Nat) : codeNormalized (spaces n) = List.replicate n ' ' := by
  unfold codeNormalized strings.ToLower spaces
  induction n with
  | zero => rfl
  | succ k ih =>
    rw [List.replicate_succ, List.map_cons, List.filter_cons]
    have h : (isWordChar (unicode.ToLower ' ') || isStripSpace (unicode.ToLower ' ')) = true := by
      decide
    have h' : unicode.ToLower ' ' = ' ' := by decide
    rw [if_pos h, ih, h']

/-- C6. Runs of spaces collapse and no empty token is counted. Replacing a non-empty run of
spaces anywhere in a text by a run of another positive length leaves the result of
`wordFrequency` unchanged, and so does adding spaces in front of or behind the text; the
empty string is never a key; and `"a  b   c"` gives a:1, b:1, c:1. -/
theorem wordFrequency_spaces (a b : String) (n m : Nat) (hn : 0 < n) (hm : 0 < m)
    (s : String) (i j : Nat) :
    wordFrequency (a ++ spaces n ++ b) = wordFrequency (a ++ spaces m ++ b)
      ∧ wordFrequency (spaces i ++ s ++ spaces j) = wordFrequency s
      ∧ (∃ freq, wordFrequency s = .ok freq ∧ "" ∉ freq.keys)
      ∧ wordFrequency "a  b   c" = .ok [("a", 1), ("b", 1), ("c", 1)] := by
  refine ⟨?_, ?_, ⟨_, wordFrequency_eq s, ?_⟩, by decide⟩
  · rw [wordFrequency_eq, wordFrequency_eq]
    rw [codeNormalized_append, codeNormalized_append, codeNormalized_append,
      codeNormalized_append, codeNormalized_spaces, codeNormalized_spaces]
    unfold strings.Fields
    simp only [List.append_assoc]
    rw [strings.fieldsLoop_append_congr (codeNormalized a)
      (List.replicate n ' ' ++ codeNormalized b) (List.replicate m ' ' ++ codeNormalized b)
      (fun field => by
        rw [strings.fieldsLoop_spaces n _ field hn, strings.fieldsLoop_spaces m _ field hm])]
  · rw [wordFrequency_eq, wordFrequency_eq]
    rw [codeNormalized_append, codeNormalized_append, codeNormalized_spaces,
      codeNormalized_spaces]
    unfold strings.Fields
    simp only [List.append_assoc]
    have hlead : ∀ l : List Char,
        strings.fieldsLoop (List.replicate i ' ' ++ l) [] = strings.fieldsLoop l [] := by
      intro l
      cases i with
      | zero => rfl
      | succ k =>
        rw [strings.fieldsLoop_spaces (k + 1) l [] (by omega)]
        rfl
    have htrail : ∀ field,
        strings.fieldsLoop (List.replicate j ' ') field = strings.fieldsLoop [] field := by
      intro field
      cases j with
      | zero => rfl
      | succ k =>
        have := strings.fieldsLoop_spaces (k + 1) [] field (by omega)
        rw [List.append_nil] at this
        rw [this]
        simp [strings.fieldsLoop]
    rw [hlead, strings.fieldsLoop_append_congr (codeNormalized s) _ [] htrail, List.append_nil]
  · intro hmem
    unfold countWords at hmem
    rw [countLoop_keys] at hmem
    rcases hmem with h | h
    · simp [GoMap.make, GoMap.keys] at h
    · exact (strings.fieldsLoop_mem _ _ _ h).1 rfl

theorem wordFrequency_spaces_witness :
    ((0 < 1 ∧ 0 < 3)
      ∧ wordFrequency ("a" ++ spaces 1 ++ "b") = wordFrequency ("a" ++ spaces 3 ++ "b"))
      ∧ wordFrequency (spaces 2 ++ "a b" ++ spaces 1) = wordFrequency "a b"
      ∧ (∃ freq, wordFrequency "a b" = .ok freq ∧ "" ∉ freq.keys)
      ∧ wordFrequency "a  b   c" = .ok [("a", 1), ("b", 1), ("c", 1)] :=
  have h := wordFrequency_spaces "a" "b" 1 3 (by decide) (by decide) "a b" 2 1
  ⟨⟨⟨by decide, by decide⟩, h.1⟩, h.2⟩

end golang

namespace golang

theorem codeNormalized_fixed (l : List Char) (hfix : ∀ c ∈ l, unicode.ToLower c = c)
    (hkept : ∀ c ∈ l, (isWordChar c || isStripSpace c) = true) : codeNormalized ⟨l⟩ = l := by
  have hmap : l.map unicode.ToLower = l := by
    conv_rhs => rw [← List.map_id l]
    exact List.map_congr_left (fun c hc => hfix c hc)
  unfold codeNormalized strings.ToLower
  simp only [hmap]
  rw [List.filter_eq_self]
  exact hkept

theorem codeNormalized_idem (s : String) :
    codeNormalized ⟨codeNormalized s⟩ = codeNormalized s := by
  apply codeNormalized_fixed
  · intro c hc
    have h := codeNormalized_mem s c hc
    simp only [isStripSpace, Bool.or_eq_true, decide_eq_true_eq] at h
    exact unicode.ToLower_ascii_fixed c (by omega) (by omega)
  · exact fun c hc => codeNormalized_kept s c hc

/-- C7. Normalization is idempotent: for every text `s` the lowercase-then-strip step
returns a text `t`, applied to `t` it returns `t` again, and so the token sequence of `t`
is the token sequence of `s`. -/
theorem normalize_idempotent (s : String) :
    ∃ t, normalize s = .ok t ∧ normalize t = .ok t ∧ tokens t = tokens s := by
  refine ⟨⟨codeNormalized s⟩, normalize_eq s, ?_, ?_⟩
  · rw [normalize_eq, codeNormalized_idem]
  · rw [tokens_eq, tokens_eq, codeNormalized_idem]

/-- C8. `wordFrequency` is total: for every text it returns a table and does not panic, the
pattern of line 14 compiles, and the empty text, a text of punctuation only and a text of
whitespace only each give the empty table. (Termination is by construction: every loop of
the model recurses on the text that is left.) -/
theorem wordFrequency_total (s : String) :
    (∃ freq, wordFrequency s = .ok freq)
      ∧ (∃ re, regexp.Compile "[^\\w\\s]" = .ok re ∧ regexp.MustCompile "[^\\w\\s]" = .ok re)
      ∧ wordFrequency "" = .ok []
      ∧ wordFrequency "?!.,;-" = .ok []
      ∧ wordFrequency " \t\n  \r" = .ok [] :=
  ⟨⟨_, wordFrequency_eq s⟩,
    ⟨⟨true, [(0x30, 0x39), (0x41, 0x5A), (0x5F, 0x5F), (0x61, 0x7A), (0x09, 0x0A), (0x0C, 0x0D),
      (0x20, 0x20)]⟩, by decide, by decide⟩,
    by decide, by decide, by decide⟩

/-- C9. For every text `s`, every key of the table that `wordFrequency s` returns is a
non-empty string of `a`-`z`, `0`-`9` and `_`: each of its characters is ASCII and is neither
an upper-case letter, a punctuation character nor a space. -/
theorem wordFrequency_keys (s : String) :
    ∃ freq, wordFrequency s = .ok freq ∧ ∀ k ∈ freq.keys, isLowerWord k = true
      ∧ ∀ c ∈ k.data, c.toNat < 0x80 ∧ ¬ (0x41 ≤ c.toNat ∧ c.toNat ≤ 0x5A)
        ∧ isASCIIPunct c = false ∧ unicode.IsSpace c = false := by
  refine ⟨_, wordFrequency_eq s, ?_⟩
  intro k hk
  unfold countWords at hk
  rw [countLoop_keys] at hk
  rcases hk with hk | hk
  · simp [GoMap.make, GoMap.keys] at hk
  · obtain ⟨hne, hall⟩ := strings.fieldsLoop_mem _ _ _ hk
    have h1 : '0'.toNat = 48 := rfl
    have h2 : '9'.toNat = 57 := rfl
    have h3 : 'A'.toNat = 65 := rfl
    have h4 : 'Z'.toNat = 90 := rfl
    have h6 : 'a'.toNat = 97 := rfl
    have h7 : 'z'.toNat = 122 := rfl
    have hchar : ∀ c ∈ k.data,
        ((0x61 ≤ c.toNat ∧ c.toNat ≤ 0x7A) ∨ (0x30 ≤ c.toNat ∧ c.toNat ≤ 0x39) ∨ c.toNat = 0x5F)
          ∧ unicode.IsSpace c = false := by
      intro c hc
      rcases hall c hc with h | ⟨hmem, hsp⟩
      · simp at h
      · refine ⟨?_, hsp⟩
        rcases codeNormalized_mem s c hmem with h | h
        · exact h
        · have hkept : (isWordChar c || isStripSpace c) = true := by simp [h]
          rw [isSpace_of_kept c hkept] at hsp
          simp only [isWordChar, regexp.isalnum, Bool.not_eq_false', Bool.or_eq_true,
            Bool.and_eq_true, decide_eq_true_eq, h1, h2, h3, h4, h6, h7] at hsp
          simp only [isStripSpace, Bool.or_eq_true, decide_eq_true_eq] at h
          omega
    refine ⟨?_, ?_⟩
    · unfold isLowerWord
      rw [Bool.and_eq_true, List.all_eq_true]
      refine ⟨?_, ?_⟩
      · cases hd : k.data with
        | nil => exact absurd hd hne
        | cons x xs => rfl
      · intro c hc
        have h := (hchar c hc).1
        simp only [Bool.or_eq_true, Bool.and_eq_true, decide_eq_true_eq, h1, h2, h6, h7]
        omega
    · intro c hc
      obtain ⟨h, hsp⟩ := hchar c hc
      refine ⟨by omega, by omega, ?_, hsp⟩
      · simp only [isASCIIPunct, isWordChar, regexp.isalnum, Bool.and_eq_false_iff,
          decide_eq_false_iff_not, Bool.not_eq_false', Bool.or_eq_true, Bool.and_eq_true,
          decide_eq_true_eq, h1, h2, h3, h4, h6, h7]
        omega

end golang

namespace fmt

theorem digitChar_eq (d : Nat) (h : d < 10) : Char.ofNat ('0'.toNat + d) = Nat.digitChar d := by
  interval_cases d <;> rfl

/-- With enough fuel the digit loop writes the decimal numeral. -/
theorem fmtDigits_eq (fuel u : Nat) (buf : List Char) (h : u < fuel) :
    fmtDigits fuel u buf = golang.decimalNumeral u ++ buf := by
  induction fuel generalizing u buf with
  | zero => omega
  | succ fuel ih =>
    unfold fmtDigits
    split
    · rename_i h10
      rw [ih (u / 10) _ (by omega)]
      have hsub : u - u / 10 * 10 = u % 10 := by omega
      rw [hsub, digitChar_eq _ (Nat.mod_lt u (by omega))]
      unfold golang.decimalNumeral
      rw [if_neg (by omega), if_neg (by omega), Nat.digits_def' (by omega) (by omega : 0 < u)]
      simp
    · rename_i h10
      rw [digitChar_eq u (by omega)]
      unfold golang.decimalNumeral
      split
      · rename_i h0
        subst h0
        rfl
      · rw [Nat.digits_of_lt 10 u (by omega) (by omega)]
        rfl

theorem fmtInteger_natCast (n : Nat) : (fmtInteger (n : Int)).data = golang.decimalNumeral n := by
  unfold fmtInteger
  simp only [Int.natAbs_ofNat]
  rw [if_neg (by omega), fmtDigits_eq _ _ _ (by omega), List.append_nil]

theorem fmtInteger_negSucc (n : Nat) :
    (fmtInteger (-((n : Int) + 1))).data = '-' :: golang.decimalNumeral (n + 1) := by
  unfold fmtInteger
  have habs : (-((n : Int) + 1)).natAbs = n + 1 := by omega
  simp only [habs]
  rw [if_pos (by omega), fmtDigits_eq _ _ _ (by omega), List.append_nil]

end fmt

namespace golang

theorem printLoop_eq_join (entries : List (String × Int)) :
    printLoop entries = String.join (entries.map (fun e => fmt.Printf e.1 e.2)) := by
  simp [printLoop, String.join, List.foldl_map]

/-- C10. Whatever order `range` visits the table in, `main` writes four lines, none with a
line break inside, and as a multiset they are `four => 4`, `one => 1`, `two => 2` and
`three => 3`. In general the print loop writes, for a table `m`, one line `word => count`
per entry of `m` (the same lines up to order), and the count is written as its decimal
numeral, with a minus sign in front when negative. -/
theorem main_output (rangeOrder : GoMap → List (String × Int))
    (hr : ∀ m, (rangeOrder m).Perm m) (m : GoMap) (n : Nat) :
    (∃ lines : List String, main rangeOrder = .ok (String.join (lines.map (fun l => l ++ "\n")))
        ∧ lines.length = 4 ∧ (∀ l ∈ lines, '\n' ∉ l.data)
        ∧ lines.Perm ["four => 4", "one => 1", "two => 2", "three => 3"])
      ∧ (∃ lines : List String, printLoop (rangeOrder m) = String.join (lines.map (fun l => l ++ "\n"))
        ∧ lines.Perm (m.map (fun e => e.1 ++ " => " ++ fmt.fmtInteger e.2)))
      ∧ (fmt.fmtInteger (n : Int)).data = decimalNumeral n
      ∧ (fmt.fmtInteger (-((n : Int) + 1))).data = '-' :: decimalNumeral (n + 1) := by
  have hloop : ∀ es : List (String × Int), printLoop es
      = String.join ((es.map (fun e => e.1 ++ " => " ++ fmt.fmtInteger e.2)).map
          (fun l => l ++ "\n")) := by
    intro es
    rw [printLoop_eq_join, List.map_map]
    rfl
  have hfreq : wordFrequency "Four, One two two three Three three four  four   four"
      = .ok [("four", 4), ("one", 1), ("two", 2), ("three", 3)] := by decide
  refine ⟨⟨(rangeOrder [("four", 4), ("one", 1), ("two", 2), ("three", 3)]).map
      (fun e => e.1 ++ " => " ++ fmt.fmtInteger e.2), ?_, ?_, ?_, ?_⟩,
    ⟨_, hloop (rangeOrder m), (hr m).map _⟩, fmt.fmtInteger_natCast n, fmt.fmtInteger_negSucc n⟩
  · unfold main
    simp only []
    rw [hfreq]
    show Except.ok _ = Except.ok _
    rw [hloop]
  · rw [List.length_map, (hr _).length_eq]
    rfl
  · intro l hl
    have hl' := ((hr _).map (fun e => e.1 ++ " => " ++ fmt.fmtInteger e.2)).mem_iff.mp hl
    have hall : ∀ l ∈ List.map (fun e => e.1 ++ " => " ++ fmt.fmtInteger e.2)
        ([("four", 4), ("one", 1), ("two", 2), ("three", 3)] : GoMap), '\n' ∉ l.data := by
      decide
    exact hall l hl'
  · exact (hr _).map _

theorem main_output_witness :
    (∀ m : GoMap, (List.reverse m).Perm m)
      ∧ (∃ lines : List String,
        main List.reverse = .ok (String.join (lines.map (fun l => l ++ "\n")))
        ∧ lines.length = 4 ∧ (∀ l ∈ lines, '\n' ∉ l.data)
        ∧ lines.Perm ["four => 4", "one => 1", "two => 2", "three => 3"])
      ∧ (∃ lines : List String,
        printLoop (List.reverse [("b", 12), ("a", 1)])
          = String.join (lines.map (fun l => l ++ "\n"))
        ∧ lines.Perm (List.map (fun e => e.1 ++ " => " ++ fmt.fmtInteger e.2)
            [("b", 12), ("a", 1)]))
      ∧ (fmt.fmtInteger ((7 : Nat) : Int)).data = decimalNumeral 7
      ∧ (fmt.fmtInteger (-(((7 : Nat) : Int) + 1))).data = '-' :: decimalNumeral (7 + 1) :=
  ⟨fun m => List.reverse_perm m,
    main_output List.reverse (fun m => List.reverse_perm m) [("b", 12), ("a", 1)] 7⟩

end golang

namespace golang

theorem isSpace_of_stripSpace (c : Char) (h : isStripSpace c = true) :
    unicode.IsSpace c = true := by
  have h8 : unicode.MaxLatin1 = 255 := rfl
  simp only [isStripSpace, Bool.or_eq_true, decide_eq_true_eq] at h
  unfold unicode.IsSpace
  rw [h8, if_pos (by omega)]
  simp only [Bool.or_eq_true, decide_eq_true_eq]
  omega

theorem isSpace_of_wordChar (c : Char) (h : isWordChar c = true) :
    unicode.IsSpace c = false := by
  rw [isSpace_of_kept c (by simp [h]), h]
  rfl

theorem ToLower_wordChar (c : Char) (h : isWordChar c = true) :
    isWordChar (unicode.ToLower c) = true := by
  have h1 : '0'.toNat = 48 := rfl
  have h2 : '9'.toNat = 57 := rfl
  have h3 : 'A'.toNat = 65 := rfl
  have h4 : 'Z'.toNat = 90 := rfl
  have h6 : 'a'.toNat = 97 := rfl
  have h7 : 'z'.toNat = 122 := rfl
  by_cases hu : 0x41 ≤ c.toNat ∧ c.toNat ≤ 0x5A
  · rw [unicode.ToLower_upper c hu]
    simp only [isWordChar, regexp.isalnum, Bool.or_eq_true, Bool.and_eq_true, decide_eq_true_eq,
      h1, h2, h3, h4, h6, h7]
    rw [Char.toNat_ofNat_small _ (by omega)]
    omega
  · have hc := h
    simp only [isWordChar, regexp.isalnum, Bool.or_eq_true, Bool.and_eq_true, decide_eq_true_eq,
      h1, h2, h3, h4, h6, h7] at hc
    rw [unicode.ToLower_ascii_fixed c (by omega) hu]
    exact h

/-- A text of word characters is normalized by lower-casing alone. -/
theorem codeNormalized_word (u : String) (hu : allWordChars u = true) :
    codeNormalized u = (strings.ToLower u).data := by
  unfold codeNormalized
  rw [List.filter_eq_self]
  intro c hc
  unfold strings.ToLower at hc
  obtain ⟨r, hr, rfl⟩ := List.mem_map.mp hc
  unfold allWordChars at hu
  rw [List.all_eq_true] at hu
  simp [ToLower_wordChar r (hu r hr)]

theorem toLower_word_nospace (u : String) (hu : allWordChars u = true) :
    ∀ c ∈ (strings.ToLower u).data, unicode.IsSpace c = false := by
  intro c hc
  unfold strings.ToLower at hc
  obtain ⟨r, hr, rfl⟩ := List.mem_map.mp hc
  unfold allWordChars at hu
  rw [List.all_eq_true] at hu
  exact isSpace_of_wordChar _ (ToLower_wordChar r (hu r hr))

theorem codeNormalized_stripSpace (c : Char) (h : isStripSpace c = true) :
    codeNormalized (String.singleton c) = [c] := by
  have hc := h
  simp only [isStripSpace, Bool.or_eq_true, decide_eq_true_eq] at hc
  have hfix : unicode.ToLower c = c := unicode.ToLower_ascii_fixed c (by omega) (by omega)
  simp [codeNormalized, strings.ToLower, String.singleton, hfix, h]

end golang

namespace strings

/-- A text without spaces is read into the field in progress. -/
theorem fieldsLoop_nospace (l field : List Char) (h : ∀ c ∈ l, unicode.IsSpace c = false) :
    fieldsLoop l field = fieldsLoop [] (l.reverse ++ field) := by
  induction l generalizing field with
  | nil => rfl
  | cons c l ih =>
    rw [fieldsLoop_nonspace c l field (h c (List.mem_cons_self c l)),
      ih (c :: field) (fun x hx => h x (List.mem_cons_of_mem c hx))]
    simp

/-- A non-empty text without spaces is one field. -/
theorem Fields_word (l : List Char) (hne : l ≠ []) (h : ∀ c ∈ l, unicode.IsSpace c = false) :
    Fields ⟨l⟩ = [⟨l⟩] := by
  unfold Fields
  rw [fieldsLoop_nospace l [] h, List.append_nil]
  have hr : l.reverse ≠ [] := by simpa using hne
  simp [fieldsLoop, hr]

theorem Fields_append_space (a b : List Char) (r : Char) (h : unicode.IsSpace r = true) :
    Fields ⟨a ++ r :: b⟩ = Fields ⟨a⟩ ++ Fields ⟨b⟩ :=
  fieldsLoop_append_space a r b [] h

end strings

namespace golang

/-- The tokens of a word are the lower-cased word alone. -/
theorem fields_word (u : String) (hu : isWord u = true) :
    strings.Fields ⟨codeNormalized u⟩ = [strings.ToLower u] := by
  unfold isWord at hu
  rw [Bool.and_eq_true] at hu
  rw [codeNormalized_word u hu.2]
  apply strings.Fields_word
  · have hne : u.data ≠ [] := by
      intro e
      rw [e] at hu
      simp at hu
    simpa [strings.ToLower] using hne
  · exact toLower_word_nospace u hu.2

/-- A character of the class `\s` between two texts separates their tokens. -/
theorem fields_stripSpace (a b : String) (c : Char) (hc : isStripSpace c = true) :
    strings.Fields ⟨codeNormalized (a ++ String.singleton c ++ b)⟩
      = strings.Fields ⟨codeNormalized a⟩ ++ strings.Fields ⟨codeNormalized b⟩ := by
  rw [codeNormalized_append, codeNormalized_append, codeNormalized_stripSpace c hc,
    List.append_assoc, List.singleton_append,
    strings.Fields_append_space _ _ c (isSpace_of_stripSpace c hc)]

theorem isStripSpace_space : isStripSpace ' ' = true := by decide

/-- C11 (amended). A whitespace character of the class `\s` (space, tab, newline, carriage
return, form feed) is kept by the stripping step and then separates: for all words `u` and
`v` and every such character `c`, `u ++ c ++ v` gives the same result as `u ++ " " ++ v`,
the table that counts the lower-cased `u` and the lower-cased `v` as two words. -/
theorem wordFrequency_stripSpace_separates (u v : String) (c : Char)
    (hu : isWord u = true) (hv : isWord v = true) (hc : isStripSpace c = true) :
    wordFrequency (u ++ String.singleton c ++ v) = wordFrequency (u ++ " " ++ v)
      ∧ wordFrequency (u ++ String.singleton c ++ v)
          = .ok (countWords [strings.ToLower u, strings.ToLower v]) := by
  have h : ∀ d, isStripSpace d = true →
      wordFrequency (u ++ String.singleton d ++ v)
        = .ok (countWords [strings.ToLower u, strings.ToLower v]) := by
    intro d hd
    rw [wordFrequency_eq, fields_stripSpace u v d hd, fields_word u hu, fields_word v hv]
    rfl
  refine ⟨?_, h c hc⟩
  rw [h c hc]
  exact (h ' ' isStripSpace_space).symm

theorem wordFrequency_stripSpace_separates_witness :
    (isWord "One" = true ∧ isWord "two" = true ∧ isStripSpace '\t' = true)
      ∧ wordFrequency ("One" ++ String.singleton '\t' ++ "two") = wordFrequency ("One" ++ " " ++ "two")
      ∧ wordFrequency ("One" ++ String.singleton '\t' ++ "two")
          = .ok (countWords [strings.ToLower "One", strings.ToLower "two"]) :=
  ⟨⟨by decide, by decide, by decide⟩,
    wordFrequency_stripSpace_separates "One" "two" '\t' (by decide) (by decide) (by decide)⟩

/-- C11 (as stated) fails: the vertical tab, U+0085 and U+00A0 are spaces for
`strings.Fields`, but the pattern removes them, so `a` and `b` around one of them are counted
as the single word `ab` and not as the two words of `a b`. -/
theorem wordFrequency_other_spaces_join :
    (isWord "a" = true ∧ isWord "b" = true)
      ∧ (unicode.IsSpace (Char.ofNat 0x0B) = true
        ∧ wordFrequency ("a" ++ String.singleton (Char.ofNat 0x0B) ++ "b") = .ok [("ab", 1)])
      ∧ (unicode.IsSpace (Char.ofNat 0x85) = true
        ∧ wordFrequency ("a" ++ String.singleton (Char.ofNat 0x85) ++ "b") = .ok [("ab", 1)])
      ∧ (unicode.IsSpace (Char.ofNat 0xA0) = true
        ∧ wordFrequency ("a" ++ String.singleton (Char.ofNat 0xA0) ++ "b") = .ok [("ab", 1)])
      ∧ wordFrequency ("a" ++ " " ++ "b") = .ok [("a", 1), ("b", 1)]
      ∧ wordFrequency ("a" ++ String.singleton (Char.ofNat 0x0B) ++ "b")
          ≠ wordFrequency ("a" ++ " " ++ "b")
      ∧ wordFrequency ("a" ++ String.singleton (Char.ofNat 0x85) ++ "b")
          ≠ wordFrequency ("a" ++ " " ++ "b")
      ∧ wordFrequency ("a" ++ String.singleton (Char.ofNat 0xA0) ++ "b")
          ≠ wordFrequency ("a" ++ " " ++ "b") := by
  decide

end golang

namespace GoMap

theorem keys_assign (m : GoMap) (k : String) (v : Int) :
    (m.assign k v).keys = if k ∈ m.keys then m.keys else m.keys ++ [k] := by
  induction m with
  | nil => simp [assign, keys]
  | cons e m ih =>
    obtain ⟨a, b⟩ := e
    by_cases h : a = k
    · subst h
      simp [assign, keys]
    · have hk : ¬ k = a := fun e => h e.symm
      simp only [keys] at ih
      simp only [assign, if_neg h, keys, List.map_cons, List.mem_cons, hk, false_or, ih]
      split <;> simp

theorem nodup_keys_assign (m : GoMap) (k : String) (v : Int) (h : m.keys.Nodup) :
    (m.assign k v).keys.Nodup := by
  rw [keys_assign]
  split
  · exact h
  · rename_i hk
    rw [List.nodup_append]
    refine ⟨h, List.nodup_singleton k, ?_⟩
    intro x hx hx'
    rw [List.mem_singleton] at hx'
    subst hx'
    exact hk hx

/-- In a table with unique keys the entries are the pairs of a key and its value. -/
theorem mem_iff_index (m : GoMap) (h : m.keys.Nodup) (k : String) (v : Int) :
    (k, v) ∈ m ↔ k ∈ m.keys ∧ m.index k = v := by
  induction m with
  | nil => simp [keys]
  | cons e m ih =>
    obtain ⟨a, b⟩ := e
    simp only [keys, List.map_cons, List.nodup_cons] at h
    have ih' := ih h.2
    simp only [keys] at ih'
    by_cases hk : a = k
    · subst hk
      simp only [List.mem_cons, Prod.mk.injEq, true_and, keys, List.map_cons, index, if_true,
        true_or]
      constructor
      · rintro (e | e)
        · exact e.symm
        · exact absurd (List.mem_map.mpr ⟨(a, v), e, rfl⟩) h.1
      · intro e
        exact Or.inl e.symm
    · have hk' : ¬ k = a := fun e => hk e.symm
      simp only [List.mem_cons, Prod.mk.injEq, hk', false_and, false_or, keys, List.map_cons,
        index, if_neg hk, ih']

end GoMap

namespace golang

theorem countLoop_nodup (ws : List String) (m : GoMap) (h : m.keys.Nodup) :
    (GoMap.keys
      (ws.foldl (fun frequency word => frequency.assign word (frequency.index word + 1)) m)).Nodup
      := by
  induction ws generalizing m with
  | nil => exact h
  | cons x ws ih =>
    rw [List.foldl_cons]
    exact ih _ (GoMap.nodup_keys_assign m x _ h)

theorem countWords_nodup (ws : List String) : (countWords ws).keys.Nodup :=
  countLoop_nodup ws GoMap.make (by simp [GoMap.make, GoMap.keys])

theorem countWords_index (ws : List String) (w : String) :
    (countWords ws).index w = (ws.count w : Int) := by
  unfold countWords
  rw [countLoop_index]
  simp [GoMap.make, GoMap.index]

theorem countWords_keys (ws : List String) (w : String) :
    w ∈ (countWords ws).keys ↔ w ∈ ws := by
  unfold countWords
  rw [countLoop_keys]
  simp [GoMap.make, GoMap.keys]

/-- C12. For every text `s`, the keys of the table that `wordFrequency s` returns are the
distinct tokens of `s`: a string is a key exactly when it occurs among the tokens, no key
occurs twice, and the value stored with a key is the number of its occurrences, which is
at least 1 (one increment for each occurrence; no zero or negative count is stored). -/
theorem wordFrequency_keys_are_tokens (s : String) :
    ∃ freq words, wordFrequency s = .ok freq ∧ tokens s = .ok words
      ∧ (∀ k, k ∈ freq.keys ↔ k ∈ words) ∧ freq.keys.Nodup
      ∧ ∀ e ∈ freq, e.2 = (words.count e.1 : Int) ∧ 1 ≤ e.2 := by
  refine ⟨_, _, wordFrequency_eq s, tokens_eq s, fun k => countWords_keys _ k,
    countWords_nodup _, ?_⟩
  intro e he
  obtain ⟨k, v⟩ := e
  have h := (GoMap.mem_iff_index _ (countWords_nodup _) k v).mp he
  rw [countWords_keys] at h
  rw [countWords_index] at h
  refine ⟨h.2.symm, ?_⟩
  have hpos : 0 < List.count k (strings.Fields ⟨codeNormalized s⟩) := List.count_pos_iff.mpr h.1
  show 1 ≤ v
  rw [← h.2]
  exact_mod_cast hpos

theorem codeNormalized_space : codeNormalized " " = [' '] := by decide

/-- C13. Counting is additive over concatenation with a separator: for all texts `a`, `b`
and every string `w`, the value at `w` (0 when `w` is not a key) of the table for
`a ++ " " ++ b` is the sum of its values in the tables for `a` and for `b`. -/
theorem wordFrequency_additive (a b w : String) :
    ∃ fab fa fb, wordFrequency (a ++ " " ++ b) = .ok fab ∧ wordFrequency a = .ok fa
      ∧ wordFrequency b = .ok fb ∧ fab.index w = fa.index w + fb.index w := by
  refine ⟨_, _, _, wordFrequency_eq _, wordFrequency_eq a, wordFrequency_eq b, ?_⟩
  have h := fields_stripSpace a b ' ' isStripSpace_space
  have e : String.singleton ' ' = " " := rfl
  rw [e] at h
  rw [countWords_index, countWords_index, countWords_index, h, List.count_append]
  push_cast
  rfl

end golang

namespace golang

theorem countWords_singleton (w : String) : countWords [w] = [(w, 1)] := by
  simp [countWords, GoMap.make, GoMap.assign, GoMap.index]

end golang

theorem strings.fieldsLoop_eq_nil (l field : List Char) :
    strings.fieldsLoop l field = [] ↔ field = [] ∧ ∀ c ∈ l, unicode.IsSpace c = true := by
  induction l generalizing field with
  | nil => cases field <;> simp [strings.fieldsLoop]
  | cons r rest ih =>
    cases hr : unicode.IsSpace r
    · rw [strings.fieldsLoop_nonspace r rest field hr, ih]
      simp [hr]
    · rw [strings.fieldsLoop_space r rest field hr, List.append_eq_nil, ih]
      cases field <;> simp [strings.fieldsLoop, hr]

theorem unicode.ToLower_of_toNat (r : Char) (n : Nat) (h : r.toNat = n)
    (hv : (Char.ofNat n).toNat = n) (hl : unicode.ToLower (Char.ofNat n) = Char.ofNat n) :
    unicode.ToLower r = r := by
  have e : r = Char.ofNat n := Char.eq_of_toNat_eq (by rw [h, hv])
  rw [e, hl]

/-- No space has a lower-case form other than itself. -/
theorem unicode.ToLower_space (r : Char) (h : unicode.IsSpace r = true) :
    unicode.ToLower r = r := by
  by_cases hs : r.toNat ≤ 0x7F
  · apply unicode.ToLower_ascii_fixed r hs
    have h8 : unicode.MaxLatin1 = 255 := rfl
    unfold unicode.IsSpace at h
    rw [h8, if_pos (by omega)] at h
    simp only [Bool.or_eq_true, decide_eq_true_eq] at h
    omega
  · have h8 : unicode.MaxLatin1 = 255 := rfl
    unfold unicode.IsSpace at h
    rw [h8] at h
    have hcases : r.toNat = 0x85 ∨ r.toNat = 0xA0 ∨ r.toNat = 0x1680 ∨ r.toNat = 0x2000
        ∨ r.toNat = 0x2001 ∨ r.toNat = 0x2002 ∨ r.toNat = 0x2003 ∨ r.toNat = 0x2004
        ∨ r.toNat = 0x2005 ∨ r.toNat = 0x2006 ∨ r.toNat = 0x2007 ∨ r.toNat = 0x2008
        ∨ r.toNat = 0x2009 ∨ r.toNat = 0x200A ∨ r.toNat = 0x2028 ∨ r.toNat = 0x2029
        ∨ r.toNat = 0x202F ∨ r.toNat = 0x205F ∨ r.toNat = 0x3000 := by
      split at h
      · simp only [Bool.or_eq_true, decide_eq_true_eq] at h
        omega
      · simp only [Bool.or_eq_true, Bool.and_eq_true, decide_eq_true_eq] at h
        omega
    rcases hcases with e | e | e | e | e | e | e | e | e | e | e | e | e | e | e | e | e | e | e <;>
      exact unicode.ToLower_of_toNat r _ e (by decide) (by decide)

namespace golang

theorem countWords_eq_nil (ws : List String) : countWords ws = [] ↔ ws = [] := by
  constructor
  · intro h
    cases ws with
    | nil => rfl
    | cons w ws =>
      have hk := (countWords_keys (w :: ws) w).mpr (List.mem_cons_self w ws)
      rw [h] at hk
      simp [GoMap.keys] at hk
  · intro h
    rw [h]
    rfl

/-- The result is the empty table exactly when the lower-cased text has no word character. -/
theorem wordFrequency_eq_nil_iff (s : String) :
    wordFrequency s = .ok GoMap.make
      ↔ ∀ c ∈ (strings.ToLower s).data, isWordChar c = false := by
  rw [wordFrequency_eq]
  have h0 : (Except.ok (countWords (strings.Fields ⟨codeNormalized s⟩))
      = (Except.ok GoMap.make : Except regexp.Panic GoMap))
      ↔ countWords (strings.Fields ⟨codeNormalized s⟩) = [] := by
    constructor
    · intro h
      injection h
    · intro h
      rw [h]
      rfl
  rw [h0, countWords_eq_nil]
  unfold strings.Fields
  rw [strings.fieldsLoop_eq_nil]
  constructor
  · rintro ⟨_, h⟩ c hc
    cases hw : isWordChar c
    · rfl
    · have hmem : c ∈ codeNormalized s := by
        unfold codeNormalized
        rw [List.mem_filter]
        exact ⟨hc, by simp [hw]⟩
      have := h c hmem
      rw [isSpace_of_wordChar c hw] at this
      exact absurd this (by simp)
  · intro h
    refine ⟨rfl, fun c hc => ?_⟩
    have hk := codeNormalized_kept s c hc
    unfold codeNormalized at hc
    have hw := h c (List.mem_filter.mp hc).1
    rw [isSpace_of_kept c hk, hw]
    rfl

/-- C15. For every text `s`, `wordFrequency s` is the empty table if and only if the
lower-cased `s` contains no ASCII letter, digit or underscore; in particular every text
`t` made only of ASCII punctuation characters and spaces gives the empty table. -/
theorem wordFrequency_empty_iff (s t : String)
    (ht : ∀ c ∈ t.data, isASCIIPunct c = true ∨ unicode.IsSpace c = true) :
    (wordFrequency s = .ok GoMap.make
        ↔ ∀ c ∈ (strings.ToLower s).data, isWordChar c = false)
      ∧ wordFrequency t = .ok GoMap.make := by
  refine ⟨wordFrequency_eq_nil_iff s, (wordFrequency_eq_nil_iff t).mpr ?_⟩
  intro c hc
  unfold strings.ToLower at hc
  obtain ⟨r, hr, rfl⟩ := List.mem_map.mp hc
  rcases ht r hr with hp | hsp
  · have h1 : '0'.toNat = 48 := rfl
    have h2 : '9'.toNat = 57 := rfl
    have h3 : 'A'.toNat = 65 := rfl
    have h4 : 'Z'.toNat = 90 := rfl
    have h6 : 'a'.toNat = 97 := rfl
    have h7 : 'z'.toNat = 122 := rfl
    simp only [isASCIIPunct, Bool.and_eq_true, decide_eq_true_eq, Bool.not_eq_true'] at hp
    have hw := hp.1.2
    have hfix : unicode.ToLower r = r := by
      apply unicode.ToLower_ascii_fixed r (by omega)
      simp only [isWordChar, regexp.isalnum, Bool.or_eq_false_iff, Bool.and_eq_false_iff,
        decide_eq_false_iff_not, h1, h2, h3, h4, h6, h7] at hw
      omega
    rw [hfix]
    exact hw
  · rw [unicode.ToLower_space r hsp]
    cases hw : isWordChar r
    · rfl
    · rw [isSpace_of_wordChar r hw] at hsp
      exact absurd hsp (by simp)

theorem wordFrequency_empty_iff_witness :
    (∀ c ∈ "?! \t-.".data, isASCIIPunct c = true ∨ unicode.IsSpace c = true)
      ∧ (wordFrequency "K9" = .ok GoMap.make
        ↔ ∀ c ∈ (strings.ToLower "K9").data, isWordChar c = false)
      ∧ wordFrequency "?! \t-." = .ok GoMap.make :=
  ⟨by decide, wordFrequency_empty_iff "K9" "?! \t-." (by decide)⟩

end golang

namespace golang

/-- The tokens of words joined by single spaces are the lower-cased words, in order. -/
theorem fields_joinWords (ws : List String) (hw : ∀ w ∈ ws, isWord w = true) :
    strings.Fields ⟨codeNormalized (joinWords ws)⟩ = ws.map strings.ToLower := by
  induction ws with
  | nil => decide
  | cons w ws ih =>
    cases ws with
    | nil => exact fields_word w (hw w (List.mem_cons_self w []))
    | cons w₂ rest =>
      have e : joinWords (w :: w₂ :: rest) = w ++ String.singleton ' ' ++ joinWords (w₂ :: rest) :=
        rfl
      rw [e, fields_stripSpace w _ ' ' isStripSpace_space,
        fields_word w (hw w (List.mem_cons_self w _)),
        ih (fun x hx => hw x (List.mem_cons_of_mem w hx))]
      rfl

theorem countWords_sameMap (ws ws' : List String) (hp : ws'.Perm ws) :
    sameMap (countWords ws) (countWords ws') := by
  intro k
  rw [countWords_keys, countWords_keys, countWords_index, countWords_index, hp.mem_iff,
    hp.count_eq]
  exact ⟨Iff.rfl, rfl⟩

theorem countWords_perm (ws ws' : List String) (hp : ws'.Perm ws) :
    (countWords ws).Perm (countWords ws') := by
  rw [List.perm_ext_iff_of_nodup (List.Nodup.of_map _ (countWords_nodup ws))
    (List.Nodup.of_map _ (countWords_nodup ws'))]
  intro e
  obtain ⟨k, v⟩ := e
  rw [GoMap.mem_iff_index _ (countWords_nodup ws), GoMap.mem_iff_index _ (countWords_nodup ws')]
  have h := countWords_sameMap ws ws' hp k
  rw [h.1, h.2]

/-- C16. The result does not depend on the order of the words: for all lists of words `ws`
and `ws'` with `ws'` a permutation of `ws`, the texts made by joining each list with single
spaces give the same mapping (the same keys with the same counts; the entries of one table
are those of the other). -/
theorem wordFrequency_order_independent (ws ws' : List String)
    (hw : ∀ w ∈ ws, isWord w = true) (hp : ws'.Perm ws) :
    ∃ f f', wordFrequency (joinWords ws) = .ok f ∧ wordFrequency (joinWords ws') = .ok f'
      ∧ sameMap f f' ∧ f.Perm f' := by
  have hw' : ∀ w ∈ ws', isWord w = true := fun w h => hw w (hp.mem_iff.mp h)
  refine ⟨_, _, wordFrequency_eq _, wordFrequency_eq _, ?_, ?_⟩
  · rw [fields_joinWords ws hw, fields_joinWords ws' hw']
    exact countWords_sameMap _ _ (hp.map _)
  · rw [fields_joinWords ws hw, fields_joinWords ws' hw']
    exact countWords_perm _ _ (hp.map _)

theorem wordFrequency_order_independent_witness :
    ((∀ w ∈ ["two", "One", "two"], isWord w = true)
        ∧ List.Perm ["One", "two", "two"] ["two", "One", "two"])
      ∧ ∃ f f', wordFrequency (joinWords ["two", "One", "two"]) = .ok f
        ∧ wordFrequency (joinWords ["One", "two", "two"]) = .ok f'
        ∧ sameMap f f' ∧ f.Perm f' :=
  ⟨⟨by decide, by decide⟩,
    wordFrequency_order_independent ["two", "One", "two"] ["One", "two", "two"] (by decide)
      (by decide)⟩

end golang

/-! ## The lower-casing of the code against the lower-casing of the specification -/

namespace golang

theorem lowerPairs_keys :
    ∀ p ∈ lowerPairs, (65 ≤ p.upper ∧ p.upper ≤ 90) ∨ 128 ≤ p.upper := by
  decide!

theorem specLower_capitals :
    ∀ n ∈ List.range' 65 26, specLower (Char.ofNat n) = Char.ofNat (n + 32) := by
  decide!

theorem char_ofNat_toNat (c : Char) : Char.ofNat c.toNat = c :=
  Char.eq_of_toNat_eq (by
    rcases Nat.lt_or_ge c.toNat 0xD800 with h | h
    · exact Char.toNat_ofNat_small _ h
    · have hv := c.valid
      unfold Char.ofNat
      split
      · rfl
      · rename_i hn
        exact absurd hv hn)

/-- The lower-case form of the specification for ASCII: capitals move by 32, everything
else stays. -/
theorem specLower_ascii (c : Char) (h : c.toNat < 128) :
    specLower c = if 65 ≤ c.toNat ∧ c.toNat ≤ 90 then Char.ofNat (c.toNat + 32) else c := by
  split
  · rename_i hu
    have hm : c.toNat ∈ List.range' 65 26 := by
      rw [List.mem_range']
      exact ⟨c.toNat - 65, by omega, by omega⟩
    have := specLower_capitals c.toNat hm
    rw [char_ofNat_toNat] at this
    exact this
  · rename_i hu
    unfold specLower
    split
    · rename_i p hfind
      have hmem := List.mem_of_find?_eq_some hfind
      have hkey := List.find?_some hfind
      simp only [beq_iff_eq] at hkey
      have := lowerPairs_keys p hmem
      omega
    · rfl

theorem caseRanges_entries : unicode.CaseRanges.flatMap rowEntries = lowerPairs := by
  decide!

theorem caseRanges_disjoint :
    ∀ a ∈ unicode.CaseRanges, ∀ b ∈ unicode.CaseRanges, a = b ∨ a.Hi < b.Lo ∨ b.Hi < a.Lo := by
  decide!

theorem caseRanges_even :
    ∀ cr ∈ unicode.CaseRanges, cr.Delta > unicode.MaxRune → (cr.Hi + 1 - cr.Lo) % 2 = 0 := by
  decide!

theorem mem_rowEntries (cr : unicode.CaseRange) (p : LowerPair) (hp : p ∈ rowEntries cr) :
    cr.Lo ≤ p.upper ∧ p.upper ≤ cr.Hi
      ∧ (cr.Delta > unicode.MaxRune → (p.upper - cr.Lo) % 2 = 0 ∧ p.lower = p.upper + 1)
      ∧ (¬ cr.Delta > unicode.MaxRune → p.lower = ((p.upper : Int) + cr.Delta).toNat) := by
  unfold rowEntries at hp
  split at hp
  · rename_i hd
    obtain ⟨k, hk, rfl⟩ := List.mem_map.mp hp
    rw [List.mem_range] at hk
    refine ⟨by simp, by simp only []; omega, fun _ => ⟨by simp only []; omega, rfl⟩,
      fun h => absurd hd h⟩
  · rename_i hd
    obtain ⟨k, hk, rfl⟩ := List.mem_map.mp hp
    rw [List.mem_range] at hk
    exact ⟨by simp, by simp only []; omega, fun h => absurd h hd, fun _ => rfl⟩

theorem rowEntries_mem_delta (cr : unicode.CaseRange) (n : Nat) (h1 : cr.Lo ≤ n)
    (h2 : n ≤ cr.Hi) (hd : ¬ cr.Delta > unicode.MaxRune) :
    LowerPair.mk n ((n : Int) + cr.Delta).toNat ∈ rowEntries cr := by
  unfold rowEntries
  rw [if_neg hd, List.mem_map]
  refine ⟨n - cr.Lo, List.mem_range.mpr (by omega), ?_⟩
  have e : cr.Lo + (n - cr.Lo) = n := by omega
  rw [e]

theorem rowEntries_mem_even (cr : unicode.CaseRange) (n : Nat) (h1 : cr.Lo ≤ n)
    (h2 : n ≤ cr.Hi) (hd : cr.Delta > unicode.MaxRune) (he : (n - cr.Lo) % 2 = 0)
    (hw : (cr.Hi + 1 - cr.Lo) % 2 = 0) : LowerPair.mk n (n + 1) ∈ rowEntries cr := by
  unfold rowEntries
  rw [if_pos hd, List.mem_map]
  refine ⟨(n - cr.Lo) / 2, List.mem_range.mpr (by omega), ?_⟩
  have e : cr.Lo + 2 * ((n - cr.Lo) / 2) = n := by omega
  rw [e]

/-- An entry of the flat table for a code point lies in the row that holds the code point. -/
theorem mem_lowerPairs_row (q : LowerPair) (hq : q ∈ lowerPairs) (cr : unicode.CaseRange)
    (hcr : cr ∈ unicode.CaseRanges) (h1 : cr.Lo ≤ q.upper) (h2 : q.upper ≤ cr.Hi) :
    q ∈ rowEntries cr := by
  rw [← caseRanges_entries, List.mem_flatMap] at hq
  obtain ⟨cr', hcr', hq'⟩ := hq
  have hm := mem_rowEntries cr' q hq'
  rcases caseRanges_disjoint cr' hcr' cr hcr with e | e | e
  · rw [← e]
    exact hq'
  · omega
  · omega

theorem specLower_of_mem (c : Char) (p : LowerPair) (hp : p ∈ lowerPairs)
    (hk : p.upper = c.toNat)
    (huniq : ∀ q ∈ lowerPairs, q.upper = c.toNat → q.lower = p.lower) :
    specLower c = Char.ofNat p.lower := by
  unfold specLower
  split
  · rename_i q hfind
    have hq := List.mem_of_find?_eq_some hfind
    have hkey := List.find?_some hfind
    simp only [beq_iff_eq] at hkey
    rw [huniq q hq hkey]
  · rename_i hfind
    rw [List.find?_eq_none] at hfind
    have := hfind p hp
    simp [hk] at this

theorem specLower_of_not_mem (c : Char) (h : ∀ q ∈ lowerPairs, q.upper ≠ c.toNat) :
    specLower c = c := by
  unfold specLower
  split
  · rename_i q hfind
    have hq := List.mem_of_find?_eq_some hfind
    have hkey := List.find?_some hfind
    simp only [beq_iff_eq] at hkey
    exact absurd hkey (h q hq)
  · rfl

/-- The case table of the code, read by `to_LowerCase`, is the flat table of the
specification. -/
theorem to_LowerCase_eq_specLower (c : Char) :
    unicode.to_LowerCase c unicode.CaseRanges = specLower c := by
  unfold unicode.to_LowerCase
  split
  · rename_i cr hfind
    have hcr := List.mem_of_find?_eq_some hfind
    have hin := List.find?_some hfind
    simp only [Bool.and_eq_true, decide_eq_true_eq] at hin
    split
    · rename_i hd
      by_cases he : (c.toNat - cr.Lo) % 2 = 0
      · have hp := rowEntries_mem_even cr c.toNat hin.1 hin.2 hd he (caseRanges_even cr hcr hd)
        have hp' : LowerPair.mk c.toNat (c.toNat + 1) ∈ lowerPairs := by
          rw [← caseRanges_entries, List.mem_flatMap]
          exact ⟨cr, hcr, hp⟩
        rw [specLower_of_mem c _ hp' rfl (fun q hq hk => by
          have hm := mem_rowEntries cr q (mem_lowerPairs_row q hq cr hcr (by omega) (by omega))
          have := (hm.2.2.1 hd).2
          simp only []
          omega)]
        congr 1
        simp only []
        omega
      · rw [specLower_of_not_mem c (fun q hq hk => by
          have hm := mem_rowEntries cr q (mem_lowerPairs_row q hq cr hcr (by omega) (by omega))
          have := (hm.2.2.1 hd).1
          omega)]
        have e : cr.Lo + (c.toNat - cr.Lo - (c.toNat - cr.Lo) % 2 + 1) = c.toNat := by omega
        rw [e]
        exact char_ofNat_toNat c
    · rename_i hd
      have hp := rowEntries_mem_delta cr c.toNat hin.1 hin.2 hd
      have hp' : LowerPair.mk c.toNat ((c.toNat : Int) + cr.Delta).toNat ∈ lowerPairs := by
        rw [← caseRanges_entries, List.mem_flatMap]
        exact ⟨cr, hcr, hp⟩
      rw [specLower_of_mem c _ hp' rfl (fun q hq hk => by
        have hm := mem_rowEntries cr q (mem_lowerPairs_row q hq cr hcr (by omega) (by omega))
        have := hm.2.2.2 hd
        simp only []
        rw [this, hk])]
  · rename_i hfind
    rw [List.find?_eq_none] at hfind
    rw [specLower_of_not_mem c (fun q hq hk => by
      have hq' := hq
      rw [← caseRanges_entries, List.mem_flatMap] at hq'
      obtain ⟨cr, hcr, hqr⟩ := hq'
      have hm := mem_rowEntries cr q hqr
      have := hfind cr hcr
      simp only [Bool.and_eq_true, decide_eq_true_eq, not_and] at this
      omega)]

/-- The lower-casing of the code is the lower-casing of the specification, on every
character. -/
theorem ToLower_eq_specLower (c : Char) : unicode.ToLower c = specLower c := by
  unfold unicode.ToLower
  split
  · rename_i h
    have hA : unicode.MaxASCII = 127 := rfl
    have h3 : 'A'.toNat = 65 := rfl
    have h4 : 'Z'.toNat = 90 := rfl
    have h6 : 'a'.toNat = 97 := rfl
    rw [specLower_ascii c (by omega), h3, h4, h6]
  · exact to_LowerCase_eq_specLower c

/-- The normalized text of the specification, with the whitespace of the class `\s`, is the
text that the code computes. -/
theorem normalizedText_eq (s : String) : normalizedText isStripSpace s = codeNormalized s := by
  unfold normalizedText specLowerText codeNormalized strings.ToLower
  have h : List.map specLower s.data = List.map unicode.ToLower s.data :=
    (List.map_congr_left (fun c _ => ToLower_eq_specLower c)).symm
  simp only [h]

theorem strings_ToLower_eq (s : String) : strings.ToLower s = specLowerText s := by
  unfold strings.ToLower specLowerText
  congr 1
  exact List.map_congr_left (fun c _ => ToLower_eq_specLower c)

end golang

namespace golang

theorem isSpace_eq_stripSpace_of_kept (c : Char) (h : (isWordChar c || isStripSpace c) = true) :
    unicode.IsSpace c = isStripSpace c := by
  cases hs : isStripSpace c
  · have hw : isWordChar c = true := by simpa [hs] using h
    exact isSpace_of_wordChar c hw
  · exact isSpace_of_stripSpace c hs

theorem wordsOf_stripSpace (s : String) : wordsOf isStripSpace s = codeWords s := by
  unfold wordsOf codeWords
  rw [normalizedText_eq]

theorem tokensOf_stripSpace (s : String) :
    tokensOf isStripSpace s = strings.Fields ⟨codeNormalized s⟩ := by
  unfold tokensOf
  rw [normalizedText_eq, strings.Fields_eq_splitOnP,
    List.splitOnP_congr unicode.IsSpace isStripSpace (codeNormalized s)
      (fun c hc => isSpace_eq_stripSpace_of_kept c (codeNormalized_kept s c hc))]

/-- C1 (amended). For every text `s` and every string `w`, `wordFrequency s` returns a table
whose value at `w` (0 when `w` is not a key) is the number of words of `s` equal to `w`,
the words being the maximal runs of word characters in the lower-cased text without the
characters that are neither word characters nor one of the five whitespace characters of
the class `\s` (space, tab, newline, carriage return, form feed). The embedded text has the
words four, one, two, two, three, three, three, four, four, four and gives exactly four:4,
one:1, two:2, three:3. -/
theorem wordFrequency_counts_words (s w : String) :
    (∃ freq, wordFrequency s = .ok freq
        ∧ freq.index w = ((wordsOf isStripSpace s).count w : Int))
      ∧ wordsOf isStripSpace "Four, One two two three Three three four  four   four"
          = ["four", "one", "two", "two", "three", "three", "three", "four", "four", "four"]
      ∧ wordFrequency "Four, One two two three Three three four  four   four"
          = .ok [("four", 4), ("one", 1), ("two", 2), ("three", 3)] := by
  refine ⟨⟨_, wordFrequency_eq s, ?_⟩, by decide!, by decide⟩
  rw [countWords_index, fields_codeNormalized, wordsOf_stripSpace]

/-- C1 (as stated) fails when whitespace is what the splitting step takes for it: in
`"a\x0bb"` the vertical tab is whitespace, so the words of the claim are `a` and `b`, but
the pattern removes the vertical tab and the table is ab:1, with the value 0 at `a`. -/
theorem wordFrequency_counts_words_vertical_tab :
    unicode.IsSpace (Char.ofNat 0x0B) = true
      ∧ wordsOf unicode.IsSpace "a\x0bb" = ["a", "b"]
      ∧ wordFrequency "a\x0bb" = .ok [("ab", 1)]
      ∧ ¬ ∃ freq, wordFrequency "a\x0bb" = .ok freq
          ∧ freq.index "a" = ((wordsOf unicode.IsSpace "a\x0bb").count "a" : Int) := by
  have hw : wordsOf unicode.IsSpace "a\x0bb" = ["a", "b"] := by decide
  have hf : wordFrequency "a\x0bb" = .ok [("ab", 1)] := by decide
  refine ⟨by decide, hw, hf, ?_⟩
  rintro ⟨freq, h1, h2⟩
  rw [hf] at h1
  injection h1 with h1
  subst h1
  rw [hw] at h2
  revert h2
  decide

/-- C2 (amended). For every text `s`, the counts in the table that `wordFrequency s`
returns add up to the length of the token sequence obtained by lower-casing `s`, removing
the characters that are neither word characters nor one of the five whitespace characters
of the class `\s`, and splitting on whitespace. `"Ab,  b\tc?"` has the tokens ab, b, c
and gives ab:1, b:1, c:1. -/
theorem wordFrequency_sum_counts (s : String) :
    (∃ freq, wordFrequency s = .ok freq
        ∧ freq.values.sum = ((tokensOf isStripSpace s).length : Int))
      ∧ tokensOf isStripSpace "Ab,  b\tc?" = ["ab", "b", "c"]
      ∧ wordFrequency "Ab,  b\tc?" = .ok [("ab", 1), ("b", 1), ("c", 1)] := by
  refine ⟨⟨_, wordFrequency_eq s, ?_⟩, by decide, by decide⟩
  unfold countWords
  rw [countLoop_sum, tokensOf_stripSpace]
  simp [GoMap.make, GoMap.values]

/-- C2 (as stated) fails when whitespace is what the splitting step takes for it: the
token sequence of `"a\x0bb"` is then `a`, `b`, of length 2, but the table is ab:1 and its
counts add up to 1. -/
theorem wordFrequency_sum_counts_vertical_tab :
    unicode.IsSpace (Char.ofNat 0x0B) = true
      ∧ tokensOf unicode.IsSpace "a\x0bb" = ["a", "b"]
      ∧ wordFrequency "a\x0bb" = .ok [("ab", 1)]
      ∧ ¬ ∃ freq, wordFrequency "a\x0bb" = .ok freq
          ∧ freq.values.sum = ((tokensOf unicode.IsSpace "a\x0bb").length : Int) := by
  have hw : tokensOf unicode.IsSpace "a\x0bb" = ["a", "b"] := by decide
  have hf : wordFrequency "a\x0bb" = .ok [("ab", 1)] := by decide
  refine ⟨by decide, hw, hf, ?_⟩
  rintro ⟨freq, h1, h2⟩
  rw [hf] at h1
  injection h1 with h1
  subst h1
  rw [hw] at h2
  revert h2
  decide

/-- C14. Punctuation between two words with no whitespace joins them: for all texts `u`
and `v` of word characters, not both empty, and every text `p` of ASCII punctuation
characters, `wordFrequency (u ++ p ++ v)` is the table with the single entry of `u ++ v` in
lower case (the lower case of the specification) and the count 1; `"a,b"` gives ab:1,
`"don't"` gives dont:1 and `"Mid-.9_x"` gives mid9_x:1. -/
theorem wordFrequency_punctuation_joins (u v p : String) (hu : allWordChars u = true)
    (hv : allWordChars v = true) (hne : u ++ v ≠ "")
    (hp : p.data.all isASCIIPunct = true) :
    wordFrequency (u ++ p ++ v) = .ok [(specLowerText (u ++ v), 1)]
      ∧ wordFrequency "a,b" = .ok [("ab", 1)]
      ∧ wordFrequency "don't" = .ok [("dont", 1)]
      ∧ wordFrequency "Mid-.9_x" = .ok [("mid9_x", 1)] := by
  refine ⟨?_, by decide, by decide, by decide⟩
  have huv : allWordChars (u ++ v) = true := by
    unfold allWordChars at hu hv ⊢
    rw [String.data_append, List.all_append, hu, hv]
    rfl
  have hnorm : codeNormalized (u ++ p ++ v) = (strings.ToLower (u ++ v)).data := by
    rw [codeNormalized_append, codeNormalized_append, codeNormalized_punct p hp,
      List.append_nil, ← codeNormalized_append, codeNormalized_word _ huv]
  have hdata : (u ++ v).data ≠ [] := by
    intro e
    apply hne
    have : u ++ v = ⟨(u ++ v).data⟩ := rfl
    rw [this, e]
  have hlow : strings.ToLower (u ++ v) = specLowerText (u ++ v) := strings_ToLower_eq _
  rw [wordFrequency_eq, hnorm,
    strings.Fields_word _ (by simpa [strings.ToLower] using hdata) (toLower_word_nospace _ huv),
    countWords_singleton, hlow]

theorem wordFrequency_punctuation_joins_witness :
    (allWordChars "Mid" = true ∧ allWordChars "9_x" = true ∧ "Mid" ++ "9_x" ≠ ""
        ∧ "-.".data.all isASCIIPunct = true)
      ∧ specLowerText ("Mid" ++ "9_x") = "mid9_x"
      ∧ wordFrequency ("Mid" ++ "-." ++ "9_x") = .ok [(specLowerText ("Mid" ++ "9_x"), 1)]
      ∧ wordFrequency "a,b" = .ok [("ab", 1)]
      ∧ wordFrequency "don't" = .ok [("dont", 1)]
      ∧ wordFrequency "Mid-.9_x" = .ok [("mid9_x", 1)] :=
  ⟨⟨by decide, by decide, by decide, by decide⟩, by decide,
    wordFrequency_punctuation_joins "Mid" "9_x" "-." (by decide) (by decide) (by decide)
      (by decide)⟩

end golang
